import Mathlib

/-!
# Verification of the Sedifex tenant-provisioning backend

Shallow embedding of `src/python_functions` (callables.py, utils.py,
datastore.py, auth.py, errors.py, plans.py, timestamp.py, context.py).

Modelling conventions:
* Python runtime values are the inductive `Value` (None, bool, int, str,
  Timestamp, dict).  Timestamps are carried as their integer millisecond
  payload (`timestamp.py` round-trips `from_millis`/`to_millis` exactly on
  integral milliseconds, so the `datetime` detour is elided).
* Python dicts are insertion-ordered association lists with unique keys;
  `alGet`/`alSet`/`alPop` implement `d[k]`, `d[k] = v` and `d.pop(k, None)`.
* String helpers (`lower`, `strip`, `replace`, single-character `split`)
  are implemented over the character list; `lower` is the ASCII mapping
  (all strings the code manipulates are ASCII).
* Fallible code returns `Except HttpsError`; the callable operations
  thread the world state (`roster` datastore, `default` datastore,
  identity provider) explicitly and return the state alongside the
  result, so "no partial writes" claims are expressible.
-/

set_option maxHeartbeats 1000000

namespace Sedifex

/-- Python runtime values that flow through the backend. -/
inductive Value where
  | vNone : Value
  | vBool : Bool → Value
  | vInt : Int → Value
  | vStr : String → Value
  | vTs : Int → Value
  | vMap : List (String × Value) → Value

abbrev Doc := List (String × Value)

mutual

def Value.beq : Value → Value → Bool
  | .vNone, .vNone => true
  | .vBool a, .vBool b => a == b
  | .vInt a, .vInt b => a == b
  | .vStr a, .vStr b => a == b
  | .vTs a, .vTs b => a == b
  | .vMap a, .vMap b => Value.beqEntries a b
  | _, _ => false

def Value.beqEntries : List (String × Value) → List (String × Value) → Bool
  | [], [] => true
  | (k1, v1) :: r1, (k2, v2) :: r2 => k1 == k2 && Value.beq v1 v2 && Value.beqEntries r1 r2
  | _, _ => false

end

mutual

theorem Value.beq_iff : ∀ a b : Value, Value.beq a b = true ↔ a = b
  | .vNone, .vNone => by simp [Value.beq]
  | .vNone, .vBool _ | .vNone, .vInt _ | .vNone, .vStr _ | .vNone, .vTs _ | .vNone, .vMap _ => by
      simp [Value.beq]
  | .vBool _, .vNone | .vBool _, .vInt _ | .vBool _, .vStr _ | .vBool _, .vTs _
  | .vBool _, .vMap _ => by simp [Value.beq]
  | .vInt _, .vNone | .vInt _, .vBool _ | .vInt _, .vStr _ | .vInt _, .vTs _
  | .vInt _, .vMap _ => by simp [Value.beq]
  | .vStr _, .vNone | .vStr _, .vBool _ | .vStr _, .vInt _ | .vStr _, .vTs _
  | .vStr _, .vMap _ => by simp [Value.beq]
  | .vTs _, .vNone | .vTs _, .vBool _ | .vTs _, .vInt _ | .vTs _, .vStr _
  | .vTs _, .vMap _ => by simp [Value.beq]
  | .vMap _, .vNone | .vMap _, .vBool _ | .vMap _, .vInt _ | .vMap _, .vStr _
  | .vMap _, .vTs _ => by simp [Value.beq]
  | .vBool a, .vBool b => by simp [Value.beq]
  | .vInt a, .vInt b => by simp [Value.beq]
  | .vStr a, .vStr b => by simp [Value.beq]
  | .vTs a, .vTs b => by simp [Value.beq]
  | .vMap a, .vMap b => by
      simpa [Value.beq] using Value.beqEntries_iff a b

theorem Value.beqEntries_iff : ∀ a b : List (String × Value), Value.beqEntries a b = true ↔ a = b
  | [], [] => by simp [Value.beqEntries]
  | [], _ :: _ => by simp [Value.beqEntries]
  | _ :: _, [] => by simp [Value.beqEntries]
  | (k1, v1) :: r1, (k2, v2) :: r2 => by
      simp [Value.beqEntries, Value.beq_iff v1 v2, Value.beqEntries_iff r1 r2, and_assoc]

end

instance : DecidableEq Value :=
  fun a b => decidable_of_iff (Value.beq a b = true) (Value.beq_iff a b)

/-- `d.get(k)`-style lookup in an insertion-ordered dict. -/
def alGet {α : Type} : List (String × α) → String → Option α
  | [], _ => none
  | (k, v) :: rest, key => if k = key then some v else alGet rest key

/-- `d[k] = v`: replace in place when the key exists, append otherwise
(Python dicts keep insertion order). -/
def alSet {α : Type} : List (String × α) → String → α → List (String × α)
  | [], key, value => [(key, value)]
  | (k, v) :: rest, key, value =>
      if k = key then (k, value) :: rest else (k, v) :: alSet rest key value

/-- `d.pop(k, None)`: drop the entry for `k` when present. -/
def alPop {α : Type} : List (String × α) → String → List (String × α)
  | [], _ => []
  | (k, v) :: rest, key => if k = key then rest else (k, v) :: alPop rest key

/-- `d.update(m)` (left-to-right over `m`). -/
def dictUpdate {α : Type} (d m : List (String × α)) : List (String × α) :=
  m.foldl (fun acc kv => alSet acc kv.1 kv.2) d

/-- `d.setdefault(k, v)`. -/
def setdefaultD (d : Doc) (key : String) (v : Value) : Doc :=
  if (alGet d key).isSome then d else alSet d key v

/-- Python `x or y` on optional strings (the strings stored in these
options are never empty, so truthiness coincides with presence). -/
def optOr {α : Type} : Option α → Option α → Option α
  | some x, _ => some x
  | none, b => b

/-- Truthiness of an optional string (`if s:` in Python). -/
def strOptTruthy : Option String → Bool
  | some s => !s.isEmpty
  | none => false

/-- Python truthiness of a runtime value. -/
def vTruthy : Value → Bool
  | .vNone => false
  | .vBool b => b
  | .vInt n => decide (n ≠ 0)
  | .vStr s => !s.isEmpty
  | .vTs _ => true
  | .vMap m => !m.isEmpty

/-- `m.get(key)` on a value that should be a mapping: non-mappings and
missing keys give `None` (mirrors `token.get(...) if isinstance(token,
Mapping) else None` and `dict.get`). -/
def vGet (v : Value) (key : String) : Value :=
  match v with
  | .vMap m => (alGet m key).getD .vNone
  | _ => .vNone

def optStrVal : Option String → Value
  | some s => .vStr s
  | none => .vNone

/-! ## String helpers (`str.lower`, `str.strip`, `str.replace`, split) -/

def charLower (c : Char) : Char :=
  if 'A' ≤ c ∧ c ≤ 'Z' then Char.ofNat (c.toNat + 32) else c

/-- ASCII model of `str.lower()`. -/
def pyLower (s : String) : String := String.mk (s.data.map charLower)

def isPySpace (c : Char) : Bool :=
  c == ' ' || c == '\t' || c == '\n' || c == '\r' || c == '\x0b' || c == '\x0c'

/-- `str.strip()` (whitespace from both ends). -/
def pyStrip (s : String) : String :=
  String.mk (((s.data.dropWhile isPySpace).reverse.dropWhile isPySpace).reverse)

/-- `str.replace(old, new)` for single-character arguments (the only form
the source uses). -/
def pyReplaceChar (s : String) (old new : Char) : String :=
  String.mk (s.data.map (fun c => if c = old then new else c))

/-- `str.split(sep)` for a single-character separator. -/
def splitOnCharAux (sep : Char) : List Char → List (List Char)
  | [] => [[]]
  | c :: rest =>
      let r := splitOnCharAux sep rest
      if c = sep then [] :: r
      else
        match r with
        | h :: t => (c :: h) :: t
        | [] => [[c]]

def pySplitChar (s : String) (sep : Char) : List String :=
  (splitOnCharAux sep s.data).map String.mk

/-! ## errors.py -/

/-- `HttpsError(code, message)` (the `details` slot is never populated by
the source's raise sites). -/
structure HttpsError where
  code : String
  message : String
  deriving DecidableEq

/-! ## plans.py -/

def PLAN_IDS : List String := ["starter", "pro", "enterprise"]

/-- `get_billing_config()` (only the fields the callables read). -/
def get_billing_config : Doc :=
  [("trial_days", .vInt 14),
   ("plan_codes", .vMap [("starter", .vStr ""), ("pro", .vStr ""), ("enterprise", .vStr "")])]

/-! ## utils.py -/

def VALID_ROLES : List String := ["owner", "staff"]

/-- `normalize_plan_id`. -/
def normalize_plan_id (value : Value) : Option String :=
  match value with
  | .vStr s =>
      let candidate := pyLower (pyStrip s)
      if !candidate.isEmpty && PLAN_IDS.contains candidate then some candidate else none
  | _ => none

/-- `normalize_workspace_slug` (callers always pass `Optional[str]`). -/
def normalize_workspace_slug (value : Option String) (fallback : String) : String :=
  match value with
  | some s =>
      let candidate := pyStrip s
      if !candidate.isEmpty then candidate else fallback
  | none => fallback

/-- `to_timestamp`: accepts a Timestamp or a mapping carrying integer
`"_millis"` (the `toMillis`-callable branch is not representable — no
value in this model is callable). -/
def to_timestamp (value : Value) : Option Int :=
  match value with
  | .vTs m => some m
  | .vMap m =>
      match alGet m "_millis" with
      | some (.vInt n) => some n
      | _ => none
  | _ => none

/-- `get_optional_string`. -/
def get_optional_string (value : Value) : Option String :=
  match value with
  | .vStr s =>
      let candidate := pyStrip s
      if !candidate.isEmpty then some candidate else none
  | _ => none

/-- `get_optional_email`. -/
def get_optional_email (value : Value) : Option String :=
  (get_optional_string value).map pyLower

def INACTIVE_STATUS_TOKENS : List String :=
  ["inactive", "terminated", "termination", "cancelled", "canceled", "suspended",
   "paused", "hold", "closed", "ended", "deactivated", "disabled"]

/-- The token set `{token for token in value.lower().replace("_", "-").split("-") if token}`. -/
def statusTokens (s : String) : List String :=
  (pySplitChar (pyReplaceChar (pyLower s) '_' '-') '-').filter (fun t => !t.isEmpty)

/-- `is_inactive_contract_status`. -/
def is_inactive_contract_status (value : Option String) : Bool :=
  match value with
  | none => false
  | some s =>
      if s.isEmpty then false
      else INACTIVE_STATUS_TOKENS.any (fun token => (statusTokens s).contains token)

/-- `ContactPayload`. -/
structure ContactPayload where
  phone : Option String
  has_phone : Bool
  first_signup_email : Option String
  has_first_signup_email : Bool
  owner_name : Option String
  has_owner_name : Bool
  business_name : Option String
  has_business_name : Bool
  country : Option String
  has_country : Bool
  town : Option String
  has_town : Bool
  signup_role : Option String
  has_signup_role : Bool
  deriving DecidableEq

/-- `_normalize_nullable_string`. -/
def normalize_nullable_string (value : Value) (message : String) :
    Except HttpsError (Option String) :=
  match value with
  | .vNone => .ok none
  | .vStr s =>
      if s.isEmpty then .ok none
      else
        let candidate := pyStrip s
        if !candidate.isEmpty then .ok (some candidate) else .ok none
  | _ => .error ⟨"invalid-argument", message⟩

/-- `_normalize_nullable_email`. -/
def normalize_nullable_email (value : Value) (message : String) :
    Except HttpsError (Option String) :=
  (normalize_nullable_string value message).map (fun r => r.map pyLower)

/-- `_normalize_signup_role`. -/
def normalize_signup_role (value : Value) : Except HttpsError (Option String) :=
  match value with
  | .vNone => .ok none
  | .vStr s =>
      if s.isEmpty then .ok none
      else
        let normalized := pyReplaceChar (pyReplaceChar (pyLower (pyStrip s)) '_' '-') ' ' '-'
        if normalized = "owner" then .ok (some "owner")
        else if normalized = "team-member" ∨ normalized = "team" then .ok (some "team-member")
        else .ok none
  | _ => .error ⟨"invalid-argument", "Signup role must be a string when provided"⟩

/-- `normalize_contact_payload`. -/
def normalize_contact_payload (raw : Value) : Except HttpsError ContactPayload :=
  match raw with
  | .vMap m => do
      let phonePresent := (alGet m "phone").isSome
      let phone ← match alGet m "phone" with
        | some v => normalize_nullable_string v "Phone must be a string when provided"
        | none => .ok none
      let fsePresent := (alGet m "firstSignupEmail").isSome
      let fse ← match alGet m "firstSignupEmail" with
        | some v => normalize_nullable_email v "First signup email must be a string when provided"
        | none => .ok none
      let ownerNamePresent := (alGet m "ownerName").isSome
      let ownerName ← match alGet m "ownerName" with
        | some v => normalize_nullable_string v "Owner name must be a string when provided"
        | none => .ok none
      let businessNamePresent := (alGet m "businessName").isSome
      let businessName ← match alGet m "businessName" with
        | some v => normalize_nullable_string v "Business name must be a string when provided"
        | none => .ok none
      let countryPresent := (alGet m "country").isSome
      let country ← match alGet m "country" with
        | some v => normalize_nullable_string v "Country must be a string when provided"
        | none => .ok none
      let townPresent := (alGet m "town").isSome
      let town ← match alGet m "town" with
        | some v => normalize_nullable_string v "Town must be a string when provided"
        | none => .ok none
      let signupRolePresent := (alGet m "signupRole").isSome
      let signupRole ← match alGet m "signupRole" with
        | some v => normalize_signup_role v
        | none => .ok none
      .ok ⟨phone, phonePresent, fse, fsePresent, ownerName, ownerNamePresent,
           businessName, businessNamePresent, country, countryPresent,
           town, townPresent, signupRole, signupRolePresent⟩
  | _ =>
      .ok ⟨none, false, none, false, none, false, none, false, none, false,
           none, false, none, false⟩

mutual

/-- Value part of `serialize_firestore_data` (timestamps become the
millisecond wire form, nested maps recurse). -/
def serializeValue : Value → Value
  | .vTs m => .vMap [("_millis", .vInt m)]
  | .vMap m => .vMap (serialize_firestore_data m)
  | v => v

/-- `serialize_firestore_data` over the entries of a document. -/
def serialize_firestore_data : Doc → Doc
  | [] => []
  | (k, v) :: rest => (k, serializeValue v) :: serialize_firestore_data rest

end

/-! ## datastore.py -/

/-- A collection: document id → document. -/
abbrev Col := List (String × Doc)

/-- An `InMemoryFirestore`: collection name → collection.  Collection
handles read through a total view (an absent collection reads as empty);
`collection(name)` materialises the empty collection eagerly in Python,
which is observationally identical at the document level. -/
abbrev Fs := List (String × Col)

mutual

/-- Value part of `_normalise_values` (a structure-preserving copy:
timestamps kept, nested dicts rebuilt). -/
def normVal : Value → Value
  | .vMap m => .vMap (normEntries m)
  | v => v

/-- `_normalise_values` over the entries of a payload. -/
def normEntries : Doc → Doc
  | [] => []
  | (k, v) :: rest => (k, normVal v) :: normEntries rest

end

/-- `DocumentReference.set(data, merge=merge)` within one collection. -/
def docSetIn (c : Col) (docId : String) (data : Doc) (merge : Bool) : Col :=
  match alGet c docId with
  | some existing =>
      if merge then alSet c docId (dictUpdate existing (normEntries data))
      else alSet c docId (normEntries data)
  | none => alSet c docId (normEntries data)

/-- `collection(col).doc(docId).get()`: `none` when the document does not
exist, otherwise its data. -/
def fsDoc (fs : Fs) (col docId : String) : Option Doc :=
  alGet ((alGet fs col).getD []) docId

/-- `collection(col).doc(docId).set(data, merge=merge)`. -/
def fsSet (fs : Fs) (col docId : String) (data : Doc) (merge : Bool) : Fs :=
  alSet fs col (docSetIn ((alGet fs col).getD []) docId data merge)

/-! ## auth.py -/

/-- `UserRecord`. -/
structure UserRecord where
  uid : String
  email : Option String
  password : Option String
  custom_claims : Doc
  deriving DecidableEq

/-- `InMemoryAuth._users`: uid → record, insertion ordered. -/
abbrev AuthState := List (String × UserRecord)

/-- `AuthError(code, message)`. -/
structure AuthErr where
  code : String
  message : String
  deriving DecidableEq

/-- `get_user_by_email`: first record (in insertion order) whose non-empty
email matches case-insensitively. -/
def getUserByEmail (users : AuthState) (email : String) : Option UserRecord :=
  (users.find? (fun kv =>
    match kv.2.email with
    | some e => !e.isEmpty && pyLower e == pyLower email
    | none => false)).map (fun kv => kv.2)

/-- `ensure_uid` (callers never pass an email). -/
def ensureUid (users : AuthState) (uid : String) : UserRecord × AuthState :=
  match alGet users uid with
  | some r => (r, users)
  | none =>
      let r : UserRecord := ⟨uid, none, none, []⟩
      (r, alSet users uid r)

/-- `create_user`: allocates uid `"uid_" ++ (len(users) + 1)`. -/
def createUser (users : AuthState) (email password : String) : UserRecord × AuthState :=
  let uid := "uid_" ++ toString (users.length + 1)
  let r : UserRecord := ⟨uid, some email, some password, []⟩
  (r, alSet users uid r)

/-- `set_custom_user_claims` (the `get_user` failure is unreachable from
the callables: `ensure_uid`/`ensure_user` run first). -/
def setCustomUserClaims (users : AuthState) (uid : String) (claims : Doc) : AuthState :=
  match alGet users uid with
  | some r => alSet users uid { r with custom_claims := claims }
  | none => users

/-- `ensure_user(email, password)`: reuse an existing account (rotating
the password when one is supplied — the record is mutated in place, so
the returned record carries the new password), else create when a
password was given, else fail `auth/user-not-found`. -/
def ensureUser (users : AuthState) (email : String) (password : Option String) :
    Except AuthErr ((UserRecord × Bool) × AuthState) :=
  match getUserByEmail users email with
  | some record =>
      if strOptTruthy password then
        let updated := { record with password := password }
        .ok ((updated, false), alSet users record.uid updated)
      else
        .ok ((record, false), users)
  | none =>
      if strOptTruthy password then
        let pair := createUser users email (password.getD "")
        .ok ((pair.1, true), pair.2)
      else
        .error ⟨"auth/user-not-found", "User with email " ++ email ++ " not found"⟩

/-! ## context.py -/

/-- `AuthContext`. -/
structure AuthContext where
  uid : String
  token : Value
  deriving DecidableEq

/-- `CallableContext`. -/
structure CallableContext where
  auth : Option AuthContext
  deriving DecidableEq

/-- The callable dependencies (`CallableDependencies`): roster datastore,
default datastore and the identity provider, threaded as explicit state. -/
structure World where
  roster : Fs
  defaultDb : Fs
  auth : AuthState
  deriving DecidableEq

def World.empty : World := ⟨[], [], []⟩

/-! ## callables.py -/

/-- Modelled from the spec: `INACTIVE_WORKSPACE_MESSAGE` lives in
`constants.py`, which is not part of the provided sources; the spec only
fixes that it is "a fixed, user-facing 'workspace inactive' message". -/
def INACTIVE_WORKSPACE_MESSAGE : String := "This Sedifex workspace is inactive."

def unauthenticatedError : HttpsError := ⟨"unauthenticated", "Login required"⟩

/-- `get_role_from_token`. -/
def get_role_from_token (token : Value) : Option String :=
  match vGet token "role" with
  | .vStr s => if VALID_ROLES.contains (pyLower s) then some (pyLower s) else none
  | _ => none

/-- `update_user_claims`: copy the record's claims, set `role`, strip the
legacy tenancy keys, store and return the map.  The `role` argument is a
runtime value because `resolve_store_access` can pass `None` through. -/
def update_user_claims (uid : String) (role : Value) (auth : AuthState) :
    Doc × AuthState :=
  let pair := ensureUid auth uid
  let claims := alSet pair.1.custom_claims "role" role
  let claims := ["stores", "activeStoreId", "storeId", "roleByStore"].foldl alPop claims
  (claims, setCustomUserClaims pair.2 uid claims)

/-- The storeId `resolve_store_access` derives from a membership:
`get_optional_string(member.get("storeId")) or uid`. -/
def memberStoreId (member_data : Doc) (uid : String) : String :=
  (get_optional_string ((alGet member_data "storeId").getD .vNone)).getD uid

/-- The status value `resolve_store_access` classifies: the sanitised
`status` string when present, else the raw `contractStatus` value, kept
only when it is a string. -/
def storeStatusString (store_data : Doc) : Option String :=
  match get_optional_string ((alGet store_data "status").getD .vNone) with
  | some s => some s
  | none =>
      match (alGet store_data "contractStatus").getD .vNone with
      | .vStr s => some s
      | _ => none

/-- `resolve_store_access`. -/
def resolve_store_access (_data : Option Value) (ctx : CallableContext) (w : World) :
    Except HttpsError Value × World :=
  match ctx.auth with
  | none => (.error unauthenticatedError, w)
  | some auth =>
      let uid := auth.uid
      match fsDoc w.roster "teamMembers" uid with
      | none =>
          (.error ⟨"permission-denied",
            "We could not find a workspace assignment for this account. Reach out to your Sedifex administrator."⟩, w)
      | some member_data =>
          let store_id := memberStoreId member_data uid
          let workspace_slug :=
            (get_optional_string ((alGet member_data "workspaceSlug").getD .vNone)).getD store_id
          match fsDoc w.defaultDb "stores" store_id with
          | none =>
              (.error ⟨"failed-precondition",
                "We could not locate the Sedifex workspace configuration for this store. Reach out to your Sedifex administrator."⟩, w)
          | some store_data =>
              if is_inactive_contract_status (storeStatusString store_data) then
                (.error ⟨"permission-denied", INACTIVE_WORKSPACE_MESSAGE⟩, w)
              else
                let pair := update_user_claims uid ((alGet member_data "role").getD (.vStr "staff")) w.auth
                let result : Doc :=
                  [("ok", .vBool true),
                   ("storeId", .vStr store_id),
                   ("workspaceSlug", .vStr workspace_slug),
                   ("claims", .vMap pair.1),
                   ("teamMember", .vMap [("id", .vStr uid), ("data", .vMap (serialize_firestore_data member_data))]),
                   ("store", .vMap [("id", .vStr store_id), ("data", .vMap (serialize_firestore_data store_data))])]
                (.ok (.vMap result), { w with auth := pair.2 })

/-- `normalize_manage_staff_payload`. -/
def normalize_manage_staff_payload (data : Value) :
    Except HttpsError (String × String × String × Option String) :=
  let store_id := (get_optional_string (vGet data "storeId")).getD ""
  let email := (get_optional_email (vGet data "email")).getD ""
  let role := (get_optional_string (vGet data "role")).getD ""
  match
    (match vGet data "password" with
     | .vNone => Except.ok (none : Option String)
     | .vStr s => if s.isEmpty then .ok none else .ok (some s)
     | _ => .error (⟨"invalid-argument", "Password must be a string when provided"⟩ : HttpsError))
  with
  | .error e => .error e
  | .ok password =>
      if store_id.isEmpty then .error ⟨"invalid-argument", "A storeId is required"⟩
      else if email.isEmpty then .error ⟨"invalid-argument", "A valid email is required"⟩
      else if role.isEmpty then .error ⟨"invalid-argument", "A role is required"⟩
      else if !VALID_ROLES.contains role then
        .error ⟨"invalid-argument", "Unsupported role requested"⟩
      else .ok (store_id, email, role, password)

/-- `data["createdAt"] = timestamp` guarded by a prior existence check
(the pattern used for the default-db member copy). -/
def withCreatedAt (d : Doc) (tsUpd : Int) (isNew : Bool) : Doc :=
  if isNew then alSet d "createdAt" (.vTs tsUpd) else d

/-- Lines 324–334: the TeamMember payload written by
`manage_staff_account` (`invited_by` is `context.auth.uid if context.auth
else None`, hence a runtime value). -/
def manageMemberData (record_uid email store_id role : String) (invited_by : Value)
    (ts : Int) (isNew : Bool) : Doc :=
  withCreatedAt
    [("uid", .vStr record_uid),
     ("email", .vStr email),
     ("storeId", .vStr store_id),
     ("role", .vStr role),
     ("invitedBy", invited_by),
     ("updatedAt", .vTs ts)] ts isNew

/-- Lines 337–343: the email-mirror payload of `manage_staff_account`. -/
def manageEmailData (member_data : Doc) (email : String) (ts : Int) (isNew : Bool) : Doc :=
  withCreatedAt (alSet member_data "email" (.vStr email)) ts isNew

/-- `manage_staff_account`. -/
def manage_staff_account (data : Option Value) (ctx : CallableContext) (w : World)
    (ts : Int) : Except HttpsError Value × World :=
  match ctx.auth with
  | none => (.error unauthenticatedError, w)
  | some auth =>
      if get_role_from_token auth.token ≠ some "owner" then
        (.error ⟨"permission-denied", "Owner access required"⟩, w)
      else
        match normalize_manage_staff_payload (data.getD (.vMap [])) with
        | .error e => (.error e, w)
        | .ok (store_id, email, role, password) =>
            match ensureUser w.auth email password with
            | .error err => (.error ⟨"internal", err.message⟩, w)
            | .ok ((record, created), users1) =>
                let member_snap := fsDoc w.roster "teamMembers" record.uid
                let member_data := manageMemberData record.uid email store_id role
                  (.vStr auth.uid) ts member_snap.isNone
                let roster1 := fsSet w.roster "teamMembers" record.uid member_data true
                let email_snap := fsDoc roster1 "teamMembers" email
                let roster2 := fsSet roster1 "teamMembers" email
                  (manageEmailData member_data email ts email_snap.isNone) true
                let pair := update_user_claims record.uid (.vStr role) users1
                let result : Doc :=
                  [("ok", .vBool true),
                   ("role", .vStr role),
                   ("email", .vStr email),
                   ("uid", .vStr record.uid),
                   ("created", .vBool created),
                   ("storeId", .vStr store_id),
                   ("claims", .vMap pair.1)]
                (.ok (.vMap result), ⟨roster2, w.defaultDb, pair.2⟩)

/-- The purely payload/token-derived values of `initialize_store`
(lines 48–66 and the planId validation of lines 80–82; the validation is
hoisted here because the intervening lines are pure reads). -/
structure InitResolved where
  email_value : Option String
  normalized_email : Option String
  resolved_phone : Option String
  resolved_first_signup_email : Option String
  resolved_owner_name : Option String
  resolved_business_name : Option String
  resolved_country : Option String
  resolved_town : Option String
  resolved_signup_role : Option String
  requested_plan_id : Option String
  deriving DecidableEq

/-- Payload/token resolution phase of `initialize_store`. -/
def initResolve (data : Option Value) (token : Value) : Except HttpsError InitResolved :=
  let email_value : Option String :=
    match vGet token "email" with
    | .vStr s => some s
    | _ => none
  let normalized_email : Option String :=
    match email_value with
    | some s => if !s.isEmpty then some (pyLower s) else none
    | none => none
  let token_phone : Option String :=
    match vGet token "phone_number" with
    | .vStr s => some s
    | _ => none
  let payload := data.getD (.vMap [])
  match normalize_contact_payload (vGet payload "contact") with
  | .error e => .error e
  | .ok contact =>
      if vGet payload "planId" ≠ .vNone ∧ normalize_plan_id (vGet payload "planId") = none then
        .error ⟨"invalid-argument", "Choose a valid Sedifex plan."⟩
      else
        .ok
          { email_value := email_value
            normalized_email := normalized_email
            resolved_phone := if contact.has_phone then contact.phone else token_phone
            resolved_first_signup_email :=
              if contact.has_first_signup_email then contact.first_signup_email
              else normalized_email
            resolved_owner_name := if contact.has_owner_name then contact.owner_name else none
            resolved_business_name :=
              if contact.has_business_name then contact.business_name else none
            resolved_country := if contact.has_country then contact.country else none
            resolved_town := if contact.has_town then contact.town else none
            resolved_signup_role :=
              if contact.has_signup_role then contact.signup_role else none
            requested_plan_id := normalize_plan_id (vGet payload "planId") }

/-- `member_data[key] = value` when the optional value is not `None`
(`_apply_optional_member_fields`-style guard). -/
def optSet (d : Doc) (key : String) : Option String → Doc
  | some s => alSet d key (.vStr s)
  | none => d

/-- `data[key] = value` when the optional string is truthy (the store and
workspace optional-field guards). -/
def truthySet (d : Doc) (key : String) (o : Option String) : Doc :=
  if strOptTruthy o then alSet d key (.vStr (o.getD "")) else d

/-- `_apply_optional_member_fields`. -/
def apply_optional_member_fields (d : Doc) (owner_name business_name country town
    signup_role : Option String) : Doc :=
  optSet (optSet (optSet (optSet (optSet d "name" owner_name)
    "companyName" business_name) "country" country) "town" town) "signupRole" signup_role

/-- `_apply_optional_workspace_fields`. -/
def apply_optional_workspace_fields (d : Doc) (email phone owner_name business_name
    country town first_signup_email : Option String) : Doc :=
  let d := truthySet d "ownerEmail" email
  let d := truthySet d "ownerPhone" phone
  let d := truthySet d "ownerName" owner_name
  let d := truthySet (truthySet d "company" business_name) "displayName" business_name
  let d := truthySet d "country" country
  let d := truthySet d "town" town
  optSet d "firstSignupEmail" first_signup_email

def defaultInventorySummary : Doc :=
  [("trackedSkus", .vInt 0), ("lowStockSkus", .vInt 0), ("incomingShipments", .vInt 0)]

/-- `dict(existing_billing or {})` for the store's billing block (a
non-mapping value would raise a bare `TypeError` in Python; such states
are unreachable from the callables, which only ever store mappings
there). -/
def billingPayloadOf (existing_store : Doc) : Doc :=
  match alGet existing_store "billing" with
  | some (.vMap m) => m
  | _ => []

/-- Lines 119–141 of callables.py: the TeamMember document payload
written by `initialize_store` (`createdAt` appended only when the
document did not previously exist). -/
def initMemberData (rv : InitResolved) (uid store_id workspace_slug : String)
    (tsUpd : Int) (isNew : Bool) : Doc :=
  let member_base : Doc :=
    [("uid", .vStr uid),
     ("email", optStrVal rv.email_value),
     ("role", .vStr "owner"),
     ("storeId", .vStr store_id),
     ("phone", optStrVal rv.resolved_phone),
     ("firstSignupEmail", optStrVal rv.resolved_first_signup_email),
     ("invitedBy", .vStr uid),
     ("updatedAt", .vTs tsUpd),
     ("workspaceSlug", .vStr workspace_slug)]
  let member_data := apply_optional_member_fields member_base rv.resolved_owner_name
    rv.resolved_business_name rv.resolved_country rv.resolved_town rv.resolved_signup_role
  if isNew then alSet member_data "createdAt" (.vTs tsUpd) else member_data

/-- Lines 149–156: the email-mirror payload — a copy of the member
payload with `email` re-set and its own `createdAt` decision. -/
def initEmailData (member_data : Doc) (email_value : Option String) (tsUpd : Int)
    (isNew : Bool) : Doc :=
  withCreatedAt (alSet member_data "email" (optStrVal email_value)) tsUpd isNew

/-- Lines 189–194: the billing block written into the store document. -/
def billingDetails (billing_payload : Doc) (resolved_plan_id : String)
    (contract_end : Int) : Doc :=
  let billing_details := alSet billing_payload "planId" (.vStr resolved_plan_id)
  let billing_details := setdefaultD billing_details "provider" (.vStr "paystack")
  let billing_details := setdefaultD billing_details "status" (.vStr "trial")
  if (alGet billing_details "trialEndsAt").isSome then billing_details
  else alSet billing_details "trialEndsAt" (.vTs contract_end)

/-- Lines 158–203: the Store document payload.  The values that the
source reads from the existing store (`status`, `contractStatus`,
`inventorySummary` defaults) and the finished billing block are computed
by the caller and passed in. -/
def initStoreData (rv : InitResolved) (uid workspace_slug : String)
    (billing_payload : Doc) (status_value contract_status_value : String)
    (inventory_value : Value) (billing_details : Doc)
    (contract_start contract_end tsUpd : Int) (isNew : Bool) : Doc :=
  let store_base : Doc :=
    [("ownerId", .vStr uid),
     ("updatedAt", .vTs tsUpd),
     ("workspaceSlug", .vStr workspace_slug),
     ("billing", .vMap billing_payload)]
  let store_data :=
    if (alGet store_base "status").isSome then store_base
    else alSet store_base "status" (.vStr status_value)
  let store_data :=
    if (alGet store_data "contractStatus").isSome then store_data
    else alSet store_data "contractStatus" (.vStr contract_status_value)
  let store_data := setdefaultD store_data "inventorySummary" inventory_value
  let store_data := truthySet store_data "ownerEmail" rv.email_value
  let store_data := truthySet store_data "ownerName" rv.resolved_owner_name
  let store_data :=
    truthySet (truthySet store_data "displayName" rv.resolved_business_name)
      "businessName" rv.resolved_business_name
  let store_data := truthySet store_data "country" rv.resolved_country
  let store_data := truthySet store_data "town" rv.resolved_town
  let store_data := truthySet store_data "ownerPhone" rv.resolved_phone
  let store_data := alSet store_data "billing" (.vMap billing_details)
  let store_data :=
    if isNew then alSet store_data "createdAt" (.vTs tsUpd) else store_data
  let store_data :=
    if (alGet store_data "contractStart").isSome then store_data
    else alSet store_data "contractStart" (.vTs contract_start)
  if (alGet store_data "contractEnd").isSome then store_data
  else alSet store_data "contractEnd" (.vTs contract_end)

/-- Lines 207–240: the Workspace document payload; the default values
read from the existing workspace are computed by the caller. -/
def initWorkspaceData (rv : InitResolved) (uid store_id workspace_slug
    resolved_plan_id : String)
    (status_value contract_status_value payment_status_value : String)
    (contract_start contract_end tsUpd : Int) (isNew : Bool) : Doc :=
  let workspace_base : Doc :=
    [("slug", .vStr workspace_slug),
     ("storeId", .vStr store_id),
     ("ownerId", .vStr uid),
     ("updatedAt", .vTs tsUpd),
     ("planId", .vStr resolved_plan_id)]
  let workspace_data :=
    if isNew then alSet workspace_base "createdAt" (.vTs tsUpd) else workspace_base
  let workspace_data := apply_optional_workspace_fields workspace_data rv.email_value
    rv.resolved_phone rv.resolved_owner_name rv.resolved_business_name rv.resolved_country
    rv.resolved_town rv.resolved_first_signup_email
  let workspace_data :=
    if (alGet workspace_data "contractStart").isSome then workspace_data
    else alSet workspace_data "contractStart" (.vTs contract_start)
  let workspace_data :=
    if (alGet workspace_data "contractEnd").isSome then workspace_data
    else alSet workspace_data "contractEnd" (.vTs contract_end)
  let workspace_data := setdefaultD workspace_data "status" (.vStr status_value)
  let workspace_data := setdefaultD workspace_data "contractStatus"
    (.vStr contract_status_value)
  setdefaultD workspace_data "paymentStatus" (.vStr payment_status_value)

/-- State phase of `initialize_store` (lines 67–251).  `tsUpd` models the
`server_timestamp()` taken at line 75, `tsNow` the `Timestamp.now()` of
line 113.  `existing_store`/`existing_workspace` are read through a total
`{}`-defaulted view: in the source, `snap.data()` already returns `{}`
for a missing document and every guarded `if existing_store else None`
agrees with plain `.get` on `{}`. -/
def initStoreCore (rv : InitResolved) (uid : String) (w : World) (tsUpd tsNow : Int) :
    Except HttpsError Value × World :=
  let member_snap := fsDoc w.roster "teamMembers" uid
  let default_member_snap := fsDoc w.defaultDb "teamMembers" uid
  let trial_days : Int :=
    match alGet get_billing_config "trial_days" with
    | some (.vInt n) => n
    | _ => 14
  let existing_store_id : Option String :=
    match member_snap with
    | some m => get_optional_string ((alGet m "storeId").getD .vNone)
    | none => none
  let store_id := existing_store_id.getD uid
  let store_snap := fsDoc w.defaultDb "stores" store_id
  let existing_store := store_snap.getD []
  let workspace_slug := normalize_workspace_slug
    (optOr (optOr (get_optional_string ((alGet existing_store "workspaceSlug").getD .vNone))
        (get_optional_string ((alGet existing_store "slug").getD .vNone)))
      (get_optional_string ((alGet existing_store "storeSlug").getD .vNone)))
    store_id
  let workspace_snap := fsDoc w.defaultDb "workspaces" workspace_slug
  let existing_workspace := workspace_snap.getD []
  let billing_payload : Doc := billingPayloadOf existing_store
  let existing_plan_id : Option String :=
    optOr (normalize_plan_id ((alGet billing_payload "planId").getD .vNone))
      (normalize_plan_id ((alGet existing_store "planId").getD .vNone))
  let resolved_plan_id := (optOr rv.requested_plan_id existing_plan_id).getD "starter"
  let trial_duration_ms := max trial_days 0 * 24 * 60 * 60 * 1000
  let contract_start :=
    (to_timestamp ((alGet existing_store "contractStart").getD .vNone)).getD tsNow
  let contract_end :=
    (to_timestamp ((alGet existing_store "contractEnd").getD .vNone)).getD
      (contract_start + trial_duration_ms)
  let member_data := initMemberData rv uid store_id workspace_slug tsUpd member_snap.isNone
  let roster1 := fsSet w.roster "teamMembers" uid member_data true
  let default_member_data := withCreatedAt member_data tsUpd default_member_snap.isNone
  let defaultDb1 := fsSet w.defaultDb "teamMembers" uid default_member_data true
  let roster2 :=
    if strOptTruthy rv.normalized_email then
      let ne := rv.normalized_email.getD ""
      let email_snap := fsDoc roster1 "teamMembers" ne
      fsSet roster1 "teamMembers" ne
        (initEmailData member_data rv.email_value tsUpd email_snap.isNone) true
    else roster1
  let store_data := initStoreData rv uid workspace_slug billing_payload
    ((get_optional_string ((alGet existing_store "status").getD .vNone)).getD "Active")
    ((get_optional_string ((alGet existing_store "contractStatus").getD .vNone)).getD "Active")
    (if vTruthy ((alGet existing_store "inventorySummary").getD .vNone) then
       (alGet existing_store "inventorySummary").getD .vNone
     else .vMap defaultInventorySummary)
    (billingDetails billing_payload resolved_plan_id contract_end)
    contract_start contract_end tsUpd store_snap.isNone
  let defaultDb2 := fsSet defaultDb1 "stores" store_id store_data true
  let workspace_data := initWorkspaceData rv uid store_id workspace_slug resolved_plan_id
    ((get_optional_string ((alGet existing_workspace "status").getD .vNone)).getD "active")
    ((get_optional_string ((alGet existing_workspace "contractStatus").getD .vNone)).getD "active")
    ((get_optional_string ((alGet existing_workspace "paymentStatus").getD .vNone)).getD "trial")
    contract_start contract_end tsUpd workspace_snap.isNone
  let defaultDb3 := fsSet defaultDb2 "workspaces" workspace_slug workspace_data true
  let pair := update_user_claims uid (.vStr "owner") w.auth
  let result : Doc :=
    [("ok", .vBool true),
     ("storeId", .vStr store_id),
     ("claims", .vMap pair.1),
     ("teamMember", .vMap [("id", .vStr uid), ("data", .vMap (serialize_firestore_data member_data))]),
     ("store", .vMap [("id", .vStr store_id), ("data", .vMap (serialize_firestore_data store_data))]),
     ("workspace", .vMap [("id", .vStr workspace_slug), ("data", .vMap (serialize_firestore_data workspace_data))])]
  (.ok (.vMap result), ⟨roster2, defaultDb3, pair.2⟩)

/-- `initialize_store`. -/
def initialize_store (data : Option Value) (ctx : CallableContext) (w : World)
    (tsUpd tsNow : Int) : Except HttpsError Value × World :=
  match ctx.auth with
  | none => (.error unauthenticatedError, w)
  | some auth =>
      match initResolve data auth.token with
      | .error e => (.error e, w)
      | .ok rv => initStoreCore rv auth.uid w tsUpd tsNow

instance {ε α : Type} [DecidableEq ε] [DecidableEq α] : DecidableEq (Except ε α) := fun a b =>
  match a, b with
  | .ok x, .ok y => if h : x = y then .isTrue (by rw [h]) else .isFalse (by simp [h])
  | .error x, .error y => if h : x = y then .isTrue (by rw [h]) else .isFalse (by simp [h])
  | .ok _, .error _ => .isFalse (by simp)
  | .error _, .ok _ => .isFalse (by simp)

/-! ## Association-list lemmas -/

def alKeys {α : Type} (d : List (String × α)) : List String := d.map Prod.fst

theorem alKeys_cons {α : Type} (k0 : String) (v0 : α) (tl : List (String × α)) :
    alKeys ((k0, v0) :: tl) = k0 :: alKeys tl := rfl

theorem alGet_alSet_self {α : Type} (d : List (String × α)) (k : String) (v : α) :
    alGet (alSet d k v) k = some v := by
  induction d with
  | nil => simp [alGet, alSet]
  | cons hd tl ih =>
      obtain ⟨k', v'⟩ := hd
      by_cases h : k' = k <;> simp [alGet, alSet, h, ih]

theorem alGet_alSet_ne {α : Type} (d : List (String × α)) {k k' : String} (v : α)
    (h : k' ≠ k) : alGet (alSet d k v) k' = alGet d k' := by
  have hkk : ¬(k = k') := fun hh => h hh.symm
  induction d with
  | nil => simp [alGet, alSet, hkk]
  | cons hd tl ih =>
      obtain ⟨k0, v0⟩ := hd
      by_cases h0 : k0 = k
      · subst h0
        simp [alGet, alSet, hkk]
      · simp only [alSet, if_neg h0]
        by_cases h1 : k0 = k' <;> simp [alGet, h1, ih]

theorem alSet_eq_self {α : Type} {d : List (String × α)} {k : String} {v : α}
    (h : alGet d k = some v) : alSet d k v = d := by
  induction d with
  | nil => simp [alGet] at h
  | cons hd tl ih =>
      obtain ⟨k0, v0⟩ := hd
      by_cases h0 : k0 = k
      · subst h0
        simp [alGet] at h
        simp [alSet, h]
      · simp [alGet, h0] at h
        simp [alSet, h0, ih h]

theorem alSet_alSet_self {α : Type} (d : List (String × α)) (k : String) (v w : α) :
    alSet (alSet d k v) k w = alSet d k w := by
  induction d with
  | nil => simp [alSet]
  | cons hd tl ih =>
      obtain ⟨k0, v0⟩ := hd
      by_cases h0 : k0 = k <;> simp [alSet, h0, ih]

theorem alSet_comm_of_mem {α : Type} {d : List (String × α)} {k1 k2 : String}
    (v1 v2 : α) (h : k1 ≠ k2) (hmem : k1 ∈ alKeys d) :
    alSet (alSet d k1 v1) k2 v2 = alSet (alSet d k2 v2) k1 v1 := by
  have h21 : ¬(k2 = k1) := fun hh => h hh.symm
  induction d with
  | nil => simp [alKeys] at hmem
  | cons hd tl ih =>
      obtain ⟨k0, v0⟩ := hd
      by_cases h1 : k0 = k1
      · subst h1
        simp [alSet, h, h21]
      · have hmem' : k1 ∈ alKeys tl := by
          rcases (by simpa [alKeys_cons] using hmem : k1 = k0 ∨ k1 ∈ alKeys tl) with heq | htl
          · exact absurd heq.symm h1
          · exact htl
        by_cases h2 : k0 = k2
        · subst h2
          simp [alSet, h1, h21]
        · simp [alSet, h1, h2, ih hmem']

theorem alGet_eq_none_iff {α : Type} (d : List (String × α)) (k : String) :
    alGet d k = none ↔ k ∉ alKeys d := by
  induction d with
  | nil => simp [alGet, alKeys]
  | cons hd tl ih =>
      obtain ⟨k0, v0⟩ := hd
      rw [alKeys_cons]
      by_cases h0 : k0 = k
      · subst h0
        simp [alGet]
      · have hne : ¬(k = k0) := fun hh => h0 hh.symm
        simp [alGet, h0, ih, hne]

theorem alGet_of_mem_nodup {α : Type} {d : List (String × α)} {k : String} {v : α}
    (hnd : (alKeys d).Nodup) (hmem : (k, v) ∈ d) : alGet d k = some v := by
  induction d with
  | nil => simp at hmem
  | cons hd tl ih =>
      obtain ⟨k0, v0⟩ := hd
      rw [alKeys_cons, List.nodup_cons] at hnd
      rcases List.mem_cons.mp hmem with heq | htl
      · obtain ⟨h1, h2⟩ := Prod.mk.injEq .. ▸ heq
        simp [alGet, h1.symm, h2]
      · have hk : k0 ≠ k := by
          intro hk0
          exact hnd.1 (hk0 ▸ List.mem_map_of_mem Prod.fst htl)
        simp [alGet, hk, ih hnd.2 htl]

theorem alKeys_alSet {α : Type} (d : List (String × α)) (k : String) (v : α) :
    alKeys (alSet d k v) = if k ∈ alKeys d then alKeys d else alKeys d ++ [k] := by
  induction d with
  | nil => simp [alSet, alKeys]
  | cons hd tl ih =>
      obtain ⟨k0, v0⟩ := hd
      by_cases h0 : k0 = k
      · subst h0
        simp [alSet, alKeys_cons]
      · rw [show alSet ((k0, v0) :: tl) k v = (k0, v0) :: alSet tl k v by simp [alSet, h0]]
        rw [alKeys_cons, alKeys_cons, ih]
        have hne : ¬(k = k0) := fun hh => h0 hh.symm
        by_cases hmem : k ∈ alKeys tl <;> simp [hmem, hne]

theorem alKeys_alSet_nodup {α : Type} {d : List (String × α)} (k : String) (v : α)
    (hnd : (alKeys d).Nodup) : (alKeys (alSet d k v)).Nodup := by
  rw [alKeys_alSet]
  by_cases hmem : k ∈ alKeys d
  · simpa [hmem] using hnd
  · simp [hmem, List.nodup_append, hnd]

theorem alGet_alPop_ne {α : Type} (d : List (String × α)) {k k' : String}
    (h : k' ≠ k) : alGet (alPop d k) k' = alGet d k' := by
  induction d with
  | nil => simp [alPop]
  | cons hd tl ih =>
      obtain ⟨k0, v0⟩ := hd
      by_cases h0 : k0 = k
      · have hne : ¬(k0 = k') := fun hh => h (hh.symm.trans h0)
        have hne2 : ¬(k = k') := fun hh => h hh.symm
        simp [alPop, alGet, h0, hne, hne2]
      · by_cases h1 : k0 = k' <;> simp [alPop, alGet, h0, h1, ih, h]

theorem alGet_foldl_alPop_ne {α : Type} (keys : List String) (d : List (String × α))
    {k : String} (h : k ∉ keys) : alGet (keys.foldl alPop d) k = alGet d k := by
  induction keys generalizing d with
  | nil => rfl
  | cons hd tl ih =>
      have hne : k ≠ hd := fun hh => h (by simp [hh])
      have htl : k ∉ tl := fun hh => h (by simp [hh])
      simpa [List.foldl_cons, alGet_alPop_ne _ hne] using
        (ih (alPop d hd) htl).trans (alGet_alPop_ne d hne)

theorem alGet_alPop_self {α : Type} (d : List (String × α)) (k : String)
    (hnd : (alKeys d).Nodup) : alGet (alPop d k) k = none := by
  induction d with
  | nil => simp [alPop, alGet]
  | cons hd tl ih =>
      obtain ⟨k0, v0⟩ := hd
      rw [alKeys_cons, List.nodup_cons] at hnd
      by_cases h0 : k0 = k
      · subst h0
        simp [alPop, (alGet_eq_none_iff tl k0).mpr hnd.1]
      · simp [alPop, alGet, h0, ih hnd.2]

theorem dictUpdate_nil {α : Type} (d : List (String × α)) : dictUpdate d [] = d := rfl

theorem dictUpdate_cons {α : Type} (d : List (String × α)) (k : String) (v : α)
    (m : List (String × α)) :
    dictUpdate d ((k, v) :: m) = dictUpdate (alSet d k v) m := rfl

/-- Updating with a payload whose every entry is already present with the
same value leaves the dict unchanged. -/
theorem dictUpdate_eq_self {α : Type} {d m : List (String × α)}
    (h : ∀ kv ∈ m, alGet d kv.1 = some kv.2) : dictUpdate d m = d := by
  induction m generalizing d with
  | nil => rfl
  | cons hd tl ih =>
      obtain ⟨k, v⟩ := hd
      rw [dictUpdate_cons, alSet_eq_self (h (k, v) (by simp))]
      exact ih fun kv hkv => h kv (List.mem_cons_of_mem _ hkv)

/-- Merge absorption: updating `d` with a unique-key payload `m` that
agrees with `d` everywhere except (at most) at key `u` — where `m` holds
`w` — rewrites exactly that one key. -/
theorem dictUpdate_single_change {α : Type} {d m : List (String × α)} {u : String} {w : α}
    (hnd : (alKeys m).Nodup) (hu : alGet m u = some w)
    (hrest : ∀ k v, alGet m k = some v → k ≠ u → alGet d k = some v) :
    dictUpdate d m = alSet d u w := by
  induction m generalizing d with
  | nil => simp [alGet] at hu
  | cons hd tl ih =>
      obtain ⟨k, v⟩ := hd
      rw [alKeys_cons, List.nodup_cons] at hnd
      by_cases hk : k = u
      · subst hk
        have hv : v = w := by simpa [alGet] using hu
        subst hv
        rw [dictUpdate_cons]
        refine dictUpdate_eq_self fun kv hkv => ?_
        have hkvKeys : kv.1 ∈ alKeys tl := List.mem_map_of_mem Prod.fst hkv
        have hne : kv.1 ≠ k := fun hh => hnd.1 (hh ▸ hkvKeys)
        have hget : alGet tl kv.1 = some kv.2 := alGet_of_mem_nodup hnd.2 hkv
        have hgm : alGet ((k, v) :: tl) kv.1 = some kv.2 := by
          have hne' : ¬(k = kv.1) := fun hh => hne hh.symm
          simp [alGet, hne', hget]
        rw [alGet_alSet_ne d v hne]
        exact hrest kv.1 kv.2 hgm hne
      · have hv' : alGet tl u = some w := by
          have hcons : alGet ((k, v) :: tl) u = some w := hu
          simpa [alGet, hk] using hcons
        have hd' : alGet d k = some v := hrest k v (by simp [alGet]) hk
        rw [dictUpdate_cons, alSet_eq_self hd']
        refine ih hnd.2 hv' fun k' v' hget hne' => ?_
        have hkne : ¬(k = k') := by
          intro hh
          subst hh
          have hnone : alGet tl k = none := (alGet_eq_none_iff tl k).mpr hnd.1
          rw [hnone] at hget
          cases hget
        exact hrest k' v' (by simp [alGet, hkne, hget]) hne'

mutual

theorem normVal_eq : ∀ v : Value, normVal v = v
  | .vNone => rfl
  | .vBool _ => rfl
  | .vInt _ => rfl
  | .vStr _ => rfl
  | .vTs _ => rfl
  | .vMap m => by rw [normVal, normEntries_eq m]

theorem normEntries_eq : ∀ d : Doc, normEntries d = d
  | [] => rfl
  | (k, v) :: rest => by rw [normEntries, normVal_eq v, normEntries_eq rest]

end

/-- Lookup through a unique-key `dict.update`: every payload key wins,
everything else is preserved. -/
theorem alGet_dictUpdate {α : Type} {m : List (String × α)} (d : List (String × α))
    (hnd : (alKeys m).Nodup) (k : String) :
    alGet (dictUpdate d m) k = optOr (alGet m k) (alGet d k) := by
  induction m generalizing d with
  | nil => rfl
  | cons hd tl ih =>
      obtain ⟨k0, v0⟩ := hd
      rw [alKeys_cons, List.nodup_cons] at hnd
      rw [dictUpdate_cons, ih (alSet d k0 v0) hnd.2]
      by_cases h0 : k0 = k
      · subst h0
        rw [(alGet_eq_none_iff tl k0).mpr hnd.1]
        simp [alGet, optOr, alGet_alSet_self]
      · simp [alGet, h0, optOr, alGet_alSet_ne d v0 (fun hh => h0 hh.symm)]

theorem alPop_sublist {α : Type} (d : List (String × α)) (k : String) :
    List.Sublist (alPop d k) d := by
  induction d with
  | nil => simp [alPop]
  | cons hd tl ih =>
      obtain ⟨k0, v0⟩ := hd
      by_cases h0 : k0 = k
      · simp only [alPop, if_pos h0]
        exact List.sublist_cons_self (k0, v0) tl
      · simpa [alPop, h0] using ih.cons₂ (k0, v0)

theorem alKeys_alPop_nodup {α : Type} {d : List (String × α)} (k : String)
    (hnd : (alKeys d).Nodup) : (alKeys (alPop d k)).Nodup :=
  hnd.sublist ((alPop_sublist d k).map Prod.fst)

theorem alGet_none_alPop {α : Type} {d : List (String × α)} {k : String} (k' : String)
    (h : alGet d k = none) : alGet (alPop d k') k = none := by
  induction d with
  | nil => simp [alPop, alGet]
  | cons hd tl ih =>
      obtain ⟨k0, v0⟩ := hd
      by_cases h0 : k0 = k
      · simp [alGet, h0] at h
      · have htl : alGet tl k = none := by simpa [alGet, h0] using h
        by_cases h1 : k0 = k' <;> simp [alPop, alGet, h0, h1, htl, ih htl]

theorem alGet_foldl_alPop_none {α : Type} (keys : List String) (d : List (String × α))
    {k : String} (h : alGet d k = none) : alGet (keys.foldl alPop d) k = none := by
  induction keys generalizing d with
  | nil => exact h
  | cons hd tl ih => exact ih (alPop d hd) (alGet_none_alPop hd h)

theorem alGet_foldl_alPop_mem {α : Type} (keys : List String) (d : List (String × α))
    {k : String} (hmem : k ∈ keys) (hnd : (alKeys d).Nodup) :
    alGet (keys.foldl alPop d) k = none := by
  induction keys generalizing d with
  | nil => simp at hmem
  | cons hd tl ih =>
      by_cases h0 : k = hd
      · subst h0
        exact alGet_foldl_alPop_none tl (alPop d k) (alGet_alPop_self d k hnd)
      · exact ih (alPop d hd) (by simpa [h0] using hmem) (alKeys_alPop_nodup hd hnd)

theorem ensureUid_get (auth : AuthState) (uid : String) :
    alGet (ensureUid auth uid).2 uid = some (ensureUid auth uid).1 := by
  unfold ensureUid
  cases h : alGet auth uid with
  | some r => simp [h]
  | none => simp [h, alGet_alSet_self]

theorem update_user_claims_role (uid : String) (role : Value) (auth : AuthState) :
    alGet (update_user_claims uid role auth).1 "role" = some role := by
  unfold update_user_claims
  rw [alGet_foldl_alPop_ne _ _ (by decide)]
  exact alGet_alSet_self _ "role" role

theorem update_user_claims_stored (uid : String) (role : Value) (auth : AuthState) :
    ∃ r, alGet (update_user_claims uid role auth).2 uid = some r ∧
      r.custom_claims = (update_user_claims uid role auth).1 := by
  simp only [update_user_claims, setCustomUserClaims, ensureUid_get]
  exact ⟨_, alGet_alSet_self _ _ _, rfl⟩

theorem alGet_serialize (d : Doc) (k : String) :
    alGet (serialize_firestore_data d) k = (alGet d k).map serializeValue := by
  induction d with
  | nil => rfl
  | cons hd tl ih =>
      obtain ⟨k0, v0⟩ := hd
      by_cases h : k0 = k <;> simp [serialize_firestore_data, alGet, h, ih]

theorem alGet_truthySet_ne (d : Doc) {key k : String} (o : Option String)
    (h : k ≠ key) : alGet (truthySet d key o) k = alGet d k := by
  unfold truthySet
  split
  · exact alGet_alSet_ne d _ h
  · rfl

theorem alGet_optSet_ne (d : Doc) {key k : String} (o : Option String)
    (h : k ≠ key) : alGet (optSet d key o) k = alGet d k := by
  cases o with
  | some s => exact alGet_alSet_ne d _ h
  | none => rfl

theorem alGet_setdefaultD_ne (d : Doc) {key k : String} (v : Value)
    (h : k ≠ key) : alGet (setdefaultD d key v) k = alGet d k := by
  unfold setdefaultD
  split
  · rfl
  · exact alGet_alSet_ne d _ h

theorem alKeys_truthySet_nodup {d : Doc} (key : String) (o : Option String)
    (hnd : (alKeys d).Nodup) : (alKeys (truthySet d key o)).Nodup := by
  unfold truthySet
  split
  · exact alKeys_alSet_nodup _ _ hnd
  · exact hnd

theorem alKeys_optSet_nodup {d : Doc} (key : String) (o : Option String)
    (hnd : (alKeys d).Nodup) : (alKeys (optSet d key o)).Nodup := by
  cases o with
  | some s => exact alKeys_alSet_nodup _ _ hnd
  | none => exact hnd

theorem alKeys_setdefaultD_nodup {d : Doc} (key : String) (v : Value)
    (hnd : (alKeys d).Nodup) : (alKeys (setdefaultD d key v)).Nodup := by
  unfold setdefaultD
  split
  · exact hnd
  · exact alKeys_alSet_nodup _ _ hnd

theorem alGet_iteSet_ne1 {c : Prop} [Decidable c] (d : Doc) {key k : String} (v : Value)
    (h : k ≠ key) : alGet (if c then d else alSet d key v) k = alGet d k := by
  split
  · rfl
  · exact alGet_alSet_ne d _ h

theorem alGet_iteSet_ne2 {c : Prop} [Decidable c] (d : Doc) {key k : String} (v : Value)
    (h : k ≠ key) : alGet (if c then alSet d key v else d) k = alGet d k := by
  split
  · exact alGet_alSet_ne d _ h
  · rfl

theorem normalize_nullable_string_error_code {v : Value} {msg : String} {e : HttpsError}
    (h : normalize_nullable_string v msg = .error e) : e.code = "invalid-argument" := by
  cases v with
  | vStr s =>
      have hred : normalize_nullable_string (.vStr s) msg =
          (if s.isEmpty = true then Except.ok none
           else if (!(pyStrip s).isEmpty) = true then Except.ok (some (pyStrip s))
           else Except.ok none) := rfl
      rw [hred] at h
      split_ifs at h
  | vNone => cases h
  | vBool b => cases h; rfl
  | vInt n => cases h; rfl
  | vTs t => cases h; rfl
  | vMap m => cases h; rfl

theorem normalize_nullable_email_error_code {v : Value} {msg : String} {e : HttpsError}
    (h : normalize_nullable_email v msg = .error e) : e.code = "invalid-argument" := by
  unfold normalize_nullable_email at h
  cases hs : normalize_nullable_string v msg with
  | ok r => rw [hs] at h; cases h
  | error e' =>
      rw [hs] at h
      cases h
      exact normalize_nullable_string_error_code hs

theorem normalize_signup_role_error_code {v : Value} {e : HttpsError}
    (h : normalize_signup_role v = .error e) : e.code = "invalid-argument" := by
  cases v with
  | vStr s =>
      have hred : normalize_signup_role (.vStr s) =
          (if s.isEmpty = true then Except.ok none
           else if pyReplaceChar (pyReplaceChar (pyLower (pyStrip s)) '_' '-') ' ' '-' = "owner"
             then Except.ok (some "owner")
           else if pyReplaceChar (pyReplaceChar (pyLower (pyStrip s)) '_' '-') ' ' '-' = "team-member" ∨
               pyReplaceChar (pyReplaceChar (pyLower (pyStrip s)) '_' '-') ' ' '-' = "team"
             then Except.ok (some "team-member")
           else Except.ok none) := rfl
      rw [hred] at h
      split_ifs at h
  | vNone => cases h
  | vBool b => cases h; rfl
  | vInt n => cases h; rfl
  | vTs t => cases h; rfl
  | vMap m => cases h; rfl

theorem normalize_contact_payload_error_code {raw : Value} {e : HttpsError}
    (h : normalize_contact_payload raw = .error e) : e.code = "invalid-argument" := by
  cases raw with
  | vMap m =>
      simp only [normalize_contact_payload, bind, Except.bind] at h
      repeat' split at h
      any_goals cases h
      all_goals
        first
        | rfl
        | (rename_i heq; exact normalize_nullable_string_error_code heq)
        | (rename_i heq; exact normalize_nullable_email_error_code heq)
        | (rename_i heq; exact normalize_signup_role_error_code heq)
  | vNone => cases h
  | vBool b => cases h
  | vInt n => cases h
  | vTs t => cases h
  | vStr s => cases h

theorem initResolve_error_code {data : Option Value} {token : Value} {e : HttpsError}
    (h : initResolve data token = .error e) : e.code = "invalid-argument" := by
  unfold initResolve at h
  cases hc : normalize_contact_payload (vGet (data.getD (.vMap [])) "contact") with
  | error e' =>
      simp only [hc] at h
      cases h
      exact normalize_contact_payload_error_code hc
  | ok contact =>
      simp only [hc] at h
      split_ifs at h
      all_goals cases h
      rfl

theorem mem_alKeys_alSet {α : Type} {d : List (String × α)} {u : String}
    (hmem : u ∈ alKeys d) (k : String) (v : α) : u ∈ alKeys (alSet d k v) := by
  rw [alKeys_alSet]
  split
  · exact hmem
  · exact List.mem_append_left _ hmem

theorem mem_alKeys_optSet {d : Doc} {u : String} (hmem : u ∈ alKeys d)
    (k : String) (o : Option String) : u ∈ alKeys (optSet d k o) := by
  cases o with
  | some s => exact mem_alKeys_alSet hmem k _
  | none => exact hmem

theorem mem_alKeys_truthySet {d : Doc} {u : String} (hmem : u ∈ alKeys d)
    (k : String) (o : Option String) : u ∈ alKeys (truthySet d k o) := by
  unfold truthySet
  split
  · exact mem_alKeys_alSet hmem k _
  · exact hmem

theorem mem_alKeys_setdefaultD {d : Doc} {u : String} (hmem : u ∈ alKeys d)
    (k : String) (v : Value) : u ∈ alKeys (setdefaultD d k v) := by
  unfold setdefaultD
  split
  · exact hmem
  · exact mem_alKeys_alSet hmem k _

theorem optSet_alSet_comm {d : Doc} {u k : String} (w : Value) (o : Option String)
    (h : u ≠ k) (hmem : u ∈ alKeys d) :
    optSet (alSet d u w) k o = alSet (optSet d k o) u w := by
  cases o with
  | some s => exact alSet_comm_of_mem w (.vStr s) h hmem
  | none => rfl

theorem truthySet_alSet_comm {d : Doc} {u k : String} (w : Value) (o : Option String)
    (h : u ≠ k) (hmem : u ∈ alKeys d) :
    truthySet (alSet d u w) k o = alSet (truthySet d k o) u w := by
  unfold truthySet
  split
  · exact alSet_comm_of_mem w _ h hmem
  · rfl

theorem setdefaultD_alSet_comm {d : Doc} {u k : String} (w v : Value)
    (h : u ≠ k) (hmem : u ∈ alKeys d) :
    setdefaultD (alSet d u w) k v = alSet (setdefaultD d k v) u w := by
  unfold setdefaultD
  rw [alGet_alSet_ne d w (fun hh => h hh.symm)]
  split
  · rfl
  · exact alSet_comm_of_mem w v h hmem

/-- Push an `alSet` through a `createdAt`-style guarded insert
(`if (alGet d k).isSome then d else alSet d k v` pattern). -/
theorem guardSet_alSet_comm {d : Doc} {u k : String} (w v : Value)
    (h : u ≠ k) (hmem : u ∈ alKeys d) :
    (if (alGet (alSet d u w) k).isSome then alSet d u w
     else alSet (alSet d u w) k v) =
      alSet (if (alGet d k).isSome then d else alSet d k v) u w := by
  rw [alGet_alSet_ne d w (fun hh => h hh.symm)]
  split
  · rfl
  · exact alSet_comm_of_mem w v h hmem

theorem fsDoc_fsSet_ne (fs : Fs) (col : String) {id id' : String} (data : Doc)
    (merge : Bool) (h : id' ≠ id) :
    fsDoc (fsSet fs col id data merge) col id' = fsDoc fs col id' := by
  unfold fsDoc fsSet
  rw [alGet_alSet_self]
  unfold docSetIn
  cases hex : alGet ((alGet fs col).getD []) id with
  | some existing =>
      cases merge <;> simp only [Option.getD_some, Bool.false_eq_true, if_false, if_true] <;>
        exact alGet_alSet_ne _ _ h
  | none => exact alGet_alSet_ne _ _ h

/-- Lookup of a payload key in the document just written by
`set(data, merge=True)`: payload keys always win (both when creating and
when merging). -/
theorem fsDoc_fsSet_get (fs : Fs) (col id : String) (data : Doc)
    (hnd : (alKeys data).Nodup) {k : String} {v : Value} (hv : alGet data k = some v) :
    ∃ ddoc, fsDoc (fsSet fs col id data true) col id = some ddoc ∧ alGet ddoc k = some v := by
  unfold fsDoc fsSet
  rw [alGet_alSet_self]
  unfold docSetIn
  cases hex : alGet ((alGet fs col).getD []) id with
  | some existing =>
      refine ⟨dictUpdate existing (normEntries data), by simp [alGet_alSet_self], ?_⟩
      rw [normEntries_eq, alGet_dictUpdate existing hnd, hv]
      rfl
  | none =>
      refine ⟨normEntries data, by simp [alGet_alSet_self], ?_⟩
      rw [normEntries_eq]
      exact hv

theorem strOptTruthy_some {s : String} (h : s ≠ "") : strOptTruthy (some s) = true := by
  have hie : s.isEmpty = false := by
    cases hc : s.isEmpty
    · rfl
    · exact absurd ((String.isEmpty_iff s).mp hc) h
  simp [strOptTruthy, hie]

theorem pyLower_ne_empty {s : String} (h : s ≠ "") : pyLower s ≠ "" := by
  intro hc
  apply h
  have hdata : s.data.map charLower = [] := congrArg String.data hc
  have hnil : s.data = [] := List.map_eq_nil_iff.mp hdata
  cases s
  simp at hnil
  simp [hnil]

theorem initMemberData_role (rv : InitResolved) (uid store_id workspace_slug : String)
    (tsUpd : Int) (isNew : Bool) :
    alGet (initMemberData rv uid store_id workspace_slug tsUpd isNew) "role" =
      some (.vStr "owner") := by
  unfold initMemberData
  rw [alGet_iteSet_ne2 _ _ (by decide)]
  simp [apply_optional_member_fields, alGet_optSet_ne, alGet]

theorem initMemberData_storeId (rv : InitResolved) (uid store_id workspace_slug : String)
    (tsUpd : Int) (isNew : Bool) :
    alGet (initMemberData rv uid store_id workspace_slug tsUpd isNew) "storeId" =
      some (.vStr store_id) := by
  unfold initMemberData
  rw [alGet_iteSet_ne2 _ _ (by decide)]
  simp [apply_optional_member_fields, alGet_optSet_ne, alGet]

theorem initMemberData_nodup (rv : InitResolved) (uid store_id workspace_slug : String)
    (tsUpd : Int) (isNew : Bool) :
    (alKeys (initMemberData rv uid store_id workspace_slug tsUpd isNew)).Nodup := by
  unfold initMemberData apply_optional_member_fields
  have hbase : (alKeys ([("uid", Value.vStr uid),
      ("email", optStrVal rv.email_value),
      ("role", Value.vStr "owner"),
      ("storeId", Value.vStr store_id),
      ("phone", optStrVal rv.resolved_phone),
      ("firstSignupEmail", optStrVal rv.resolved_first_signup_email),
      ("invitedBy", Value.vStr uid),
      ("updatedAt", Value.vTs tsUpd),
      ("workspaceSlug", Value.vStr workspace_slug)] : Doc)).Nodup := by
    simp [alKeys]
  have h1 := alKeys_optSet_nodup "name" rv.resolved_owner_name hbase
  have h2 := alKeys_optSet_nodup "companyName" rv.resolved_business_name h1
  have h3 := alKeys_optSet_nodup "country" rv.resolved_country h2
  have h4 := alKeys_optSet_nodup "town" rv.resolved_town h3
  have h5 := alKeys_optSet_nodup "signupRole" rv.resolved_signup_role h4
  cases isNew with
  | true => simpa using alKeys_alSet_nodup "createdAt" (.vTs tsUpd) h5
  | false => simpa using h5

theorem initEmailData_role (member_data : Doc) (email_value : Option String)
    (tsUpd : Int) (isNew : Bool) :
    alGet (initEmailData member_data email_value tsUpd isNew) "role" =
      alGet member_data "role" := by
  unfold initEmailData withCreatedAt
  rw [alGet_iteSet_ne2 _ _ (by decide)]
  exact alGet_alSet_ne _ _ (by decide)

theorem initEmailData_storeId (member_data : Doc) (email_value : Option String)
    (tsUpd : Int) (isNew : Bool) :
    alGet (initEmailData member_data email_value tsUpd isNew) "storeId" =
      alGet member_data "storeId" := by
  unfold initEmailData withCreatedAt
  rw [alGet_iteSet_ne2 _ _ (by decide)]
  exact alGet_alSet_ne _ _ (by decide)

theorem initEmailData_nodup {member_data : Doc} (email_value : Option String)
    (tsUpd : Int) (isNew : Bool) (hnd : (alKeys member_data).Nodup) :
    (alKeys (initEmailData member_data email_value tsUpd isNew)).Nodup := by
  unfold initEmailData withCreatedAt
  have h1 := alKeys_alSet_nodup "email" (optStrVal email_value) hnd
  cases isNew with
  | true => simpa using alKeys_alSet_nodup "createdAt" (.vTs tsUpd) h1
  | false => simpa using h1

theorem manageMemberData_role (record_uid email store_id role : String)
    (invited_by : Value) (ts : Int) (isNew : Bool) :
    alGet (manageMemberData record_uid email store_id role invited_by ts isNew) "role" =
      some (.vStr role) := by
  unfold manageMemberData withCreatedAt
  rw [alGet_iteSet_ne2 _ _ (by decide)]
  simp [alGet]

theorem manageMemberData_storeId (record_uid email store_id role : String)
    (invited_by : Value) (ts : Int) (isNew : Bool) :
    alGet (manageMemberData record_uid email store_id role invited_by ts isNew) "storeId" =
      some (.vStr store_id) := by
  unfold manageMemberData withCreatedAt
  rw [alGet_iteSet_ne2 _ _ (by decide)]
  simp [alGet]

theorem manageMemberData_nodup (record_uid email store_id role : String)
    (invited_by : Value) (ts : Int) (isNew : Bool) :
    (alKeys (manageMemberData record_uid email store_id role invited_by ts isNew)).Nodup := by
  unfold manageMemberData withCreatedAt
  have hbase : (alKeys ([("uid", Value.vStr record_uid),
      ("email", Value.vStr email),
      ("storeId", Value.vStr store_id),
      ("role", Value.vStr role),
      ("invitedBy", invited_by),
      ("updatedAt", Value.vTs ts)] : Doc)).Nodup := by
    simp [alKeys]
  cases isNew with
  | true => simpa using alKeys_alSet_nodup "createdAt" (.vTs ts) hbase
  | false => simpa using hbase

theorem manageEmailData_role (member_data : Doc) (email : String) (ts : Int)
    (isNew : Bool) :
    alGet (manageEmailData member_data email ts isNew) "role" = alGet member_data "role" := by
  unfold manageEmailData withCreatedAt
  rw [alGet_iteSet_ne2 _ _ (by decide)]
  exact alGet_alSet_ne _ _ (by decide)

theorem manageEmailData_storeId (member_data : Doc) (email : String) (ts : Int)
    (isNew : Bool) :
    alGet (manageEmailData member_data email ts isNew) "storeId" =
      alGet member_data "storeId" := by
  unfold manageEmailData withCreatedAt
  rw [alGet_iteSet_ne2 _ _ (by decide)]
  exact alGet_alSet_ne _ _ (by decide)

theorem manageEmailData_nodup {member_data : Doc} (email : String) (ts : Int)
    (isNew : Bool) (hnd : (alKeys member_data).Nodup) :
    (alKeys (manageEmailData member_data email ts isNew)).Nodup := by
  unfold manageEmailData withCreatedAt
  have h1 := alKeys_alSet_nodup "email" (Value.vStr email) hnd
  cases isNew with
  | true => simpa using alKeys_alSet_nodup "createdAt" (.vTs ts) h1
  | false => simpa using h1

/-- Two merge-writes into one collection (uid key then email key) leave
documents at both keys whose `role` and `storeId` are the common payload
values — also when the two keys coincide. -/
theorem fsSet_mirror (fs : Fs) (col idA idB : String) (mdA mdB : Doc)
    (hndA : (alKeys mdA).Nodup) (hndB : (alKeys mdB).Nodup) {r s : Value}
    (hrA : alGet mdA "role" = some r) (hrB : alGet mdB "role" = some r)
    (hsA : alGet mdA "storeId" = some s) (hsB : alGet mdB "storeId" = some s) :
    ∃ d1 d2,
      fsDoc (fsSet (fsSet fs col idA mdA true) col idB mdB true) col idA = some d1 ∧
      fsDoc (fsSet (fsSet fs col idA mdA true) col idB mdB true) col idB = some d2 ∧
      alGet d1 "role" = some r ∧ alGet d2 "role" = some r ∧
      alGet d1 "storeId" = some s ∧ alGet d2 "storeId" = some s := by
  obtain ⟨d2, hd2, hd2r⟩ := fsDoc_fsSet_get (fsSet fs col idA mdA true) col idB mdB hndB hrB
  obtain ⟨d2', hd2', hd2s⟩ := fsDoc_fsSet_get (fsSet fs col idA mdA true) col idB mdB hndB hsB
  rw [hd2] at hd2'
  cases hd2'
  by_cases heq : idA = idB
  · subst heq
    exact ⟨d2, d2, hd2, hd2, hd2r, hd2r, hd2s, hd2s⟩
  · obtain ⟨d1, hd1, hd1r⟩ := fsDoc_fsSet_get fs col idA mdA hndA hrA
    obtain ⟨d1', hd1', hd1s⟩ := fsDoc_fsSet_get fs col idA mdA hndA hsA
    rw [hd1] at hd1'
    cases hd1'
    refine ⟨d1, d2, ?_, hd2, hd1r, hd2r, hd1s, hd2s⟩
    rw [fsDoc_fsSet_ne _ _ _ _ heq]
    exact hd1

/-- The roster state after `initStoreCore` holds the TeamMember document
at the uid key and — when an email is known — the mirror at the
lower-cased email key, both carrying role `owner` and the same storeId. -/
theorem initStoreCore_roster_mirror (rv : InitResolved) (uid : String) (w : World)
    (tsUpd tsNow : Int) (ne : String) (hne : rv.normalized_email = some ne)
    (hne2 : ne ≠ "") :
    ∃ d1 d2 s,
      fsDoc (initStoreCore rv uid w tsUpd tsNow).2.roster "teamMembers" uid = some d1 ∧
      fsDoc (initStoreCore rv uid w tsUpd tsNow).2.roster "teamMembers" ne = some d2 ∧
      alGet d1 "role" = some (.vStr "owner") ∧ alGet d2 "role" = some (.vStr "owner") ∧
      alGet d1 "storeId" = some s ∧ alGet d2 "storeId" = some s := by
  simp only [initStoreCore, hne, strOptTruthy_some hne2, if_true, Option.getD_some]
  obtain ⟨d1, d2, h1, h2, h3, h4, h5, h6⟩ := fsSet_mirror w.roster "teamMembers" uid ne
    (initMemberData rv uid _ _ tsUpd _) (initEmailData (initMemberData rv uid _ _ tsUpd _)
      rv.email_value tsUpd _)
    (initMemberData_nodup rv uid _ _ tsUpd _)
    (initEmailData_nodup rv.email_value tsUpd _ (initMemberData_nodup rv uid _ _ tsUpd _))
    (initMemberData_role rv uid _ _ tsUpd _)
    ((initEmailData_role _ rv.email_value tsUpd _).trans (initMemberData_role rv uid _ _ tsUpd _))
    (initMemberData_storeId rv uid _ _ tsUpd _)
    ((initEmailData_storeId _ rv.email_value tsUpd _).trans
      (initMemberData_storeId rv uid _ _ tsUpd _))
  exact ⟨d1, d2, _, h1, h2, h3, h4, h5, h6⟩

/-! ## Machinery for the idempotence claim: documents that agree outside
an exclusion set of keys, and how the payload builders preserve that. -/

def agreeOff (S : List String) (d1 d2 : Doc) : Prop :=
  ∀ k, k ∉ S → alGet d1 k = alGet d2 k

theorem agreeOff_mono {S S' : List String} {d1 d2 : Doc} (hsub : S ⊆ S')
    (h : agreeOff S d1 d2) : agreeOff S' d1 d2 :=
  fun k hk => h k (fun hmem => hk (hsub hmem))

theorem agreeOff_trans {S : List String} {d1 d2 d3 : Doc}
    (h1 : agreeOff S d1 d2) (h2 : agreeOff S d2 d3) : agreeOff S d1 d3 :=
  fun k hk => (h1 k hk).trans (h2 k hk)

/-- Setting a key of the exclusion set on the right only. -/
theorem agreeOff_alSet_right {S : List String} {d : Doc} {k : String} (v : Value)
    (hk : k ∈ S) : agreeOff S d (alSet d k v) := by
  intro k' hk'
  have hne : k' ≠ k := fun hh => hk' (hh ▸ hk)
  exact (alGet_alSet_ne d v hne).symm

/-- Setting a key of the exclusion set on the left only. -/
theorem agreeOff_alSet_left {S : List String} {d1 d2 : Doc} {k : String} (v : Value)
    (hk : k ∈ S) (h : agreeOff S d1 d2) : agreeOff S (alSet d1 k v) d2 := by
  intro k' hk'
  have hne : k' ≠ k := fun hh => hk' (hh ▸ hk)
  rw [alGet_alSet_ne d1 v hne]
  exact h k' hk'

/-- Setting the same key/value on both sides heals that key. -/
theorem agreeOff_alSet_heal {S : List String} {d1 d2 : Doc} (k : String) (v : Value)
    (h : agreeOff (k :: S) d1 d2) : agreeOff S (alSet d1 k v) (alSet d2 k v) := by
  intro k' hk'
  by_cases hkk : k' = k
  · subst hkk
    rw [alGet_alSet_self, alGet_alSet_self]
  · rw [alGet_alSet_ne d1 v hkk, alGet_alSet_ne d2 v hkk]
    exact h k' (by simp [hk', hkk])

theorem agreeOff_alSet_both {S : List String} {d1 d2 : Doc} (k : String) (v : Value)
    (h : agreeOff S d1 d2) : agreeOff S (alSet d1 k v) (alSet d2 k v) :=
  agreeOff_alSet_heal k v (agreeOff_mono (List.subset_cons_self k S) h)

theorem agreeOff_optSet {S : List String} {d1 d2 : Doc} (k : String) (o : Option String)
    (h : agreeOff S d1 d2) : agreeOff S (optSet d1 k o) (optSet d2 k o) := by
  cases o with
  | some s => exact agreeOff_alSet_both k _ h
  | none => exact h

theorem agreeOff_truthySet {S : List String} {d1 d2 : Doc} (k : String)
    (o : Option String) (h : agreeOff S d1 d2) :
    agreeOff S (truthySet d1 k o) (truthySet d2 k o) := by
  unfold truthySet
  split
  · exact agreeOff_alSet_both k _ h
  · exact h

theorem agreeOff_setdefaultD {S : List String} {d1 d2 : Doc} {k : String} (v : Value)
    (hk : k ∉ S) (h : agreeOff S d1 d2) :
    agreeOff S (setdefaultD d1 k v) (setdefaultD d2 k v) := by
  unfold setdefaultD
  rw [h k hk]
  split
  · exact h
  · exact agreeOff_alSet_both k v h

/-- The `if (alGet d key).isSome then d else alSet d key v` guard applied
to both sides of an agreement. -/
theorem agreeOff_guard {S : List String} {d1 d2 : Doc} {k : String} (v : Value)
    (hk : k ∉ S) (h : agreeOff S d1 d2) :
    agreeOff S (if (alGet d1 k).isSome then d1 else alSet d1 k v)
      (if (alGet d2 k).isSome then d2 else alSet d2 k v) := by
  rw [h k hk]
  split
  · exact h
  · exact agreeOff_alSet_both k v h

theorem agreeOff_apply_optional_member_fields {S : List String} {d1 d2 : Doc}
    (a b c e f : Option String) (h : agreeOff S d1 d2) :
    agreeOff S (apply_optional_member_fields d1 a b c e f)
      (apply_optional_member_fields d2 a b c e f) := by
  unfold apply_optional_member_fields
  exact agreeOff_optSet _ _ (agreeOff_optSet _ _ (agreeOff_optSet _ _
    (agreeOff_optSet _ _ (agreeOff_optSet _ _ h))))

theorem agreeOff_apply_optional_workspace_fields {S : List String} {d1 d2 : Doc}
    (a b c e f g i : Option String) (h : agreeOff S d1 d2) :
    agreeOff S (apply_optional_workspace_fields d1 a b c e f g i)
      (apply_optional_workspace_fields d2 a b c e f g i) := by
  unfold apply_optional_workspace_fields
  exact agreeOff_optSet _ _ (agreeOff_truthySet _ _ (agreeOff_truthySet _ _
    (agreeOff_truthySet _ _ (agreeOff_truthySet _ _ (agreeOff_truthySet _ _
      (agreeOff_truthySet _ _ (agreeOff_truthySet _ _ h)))))))

/-! ### Per-payload read-back lemmas for the idempotence analysis -/

theorem initMemberData_updatedAt (rv : InitResolved) (uid store_id workspace_slug : String)
    (tsUpd : Int) (isNew : Bool) :
    alGet (initMemberData rv uid store_id workspace_slug tsUpd isNew) "updatedAt" =
      some (.vTs tsUpd) := by
  unfold initMemberData
  rw [alGet_iteSet_ne2 _ _ (by decide)]
  simp [apply_optional_member_fields, alGet_optSet_ne, alGet]

theorem initMemberData_email (rv : InitResolved) (uid store_id workspace_slug : String)
    (tsUpd : Int) (isNew : Bool) :
    alGet (initMemberData rv uid store_id workspace_slug tsUpd isNew) "email" =
      some (optStrVal rv.email_value) := by
  unfold initMemberData
  rw [alGet_iteSet_ne2 _ _ (by decide)]
  simp [apply_optional_member_fields, alGet_optSet_ne, alGet]

theorem initMemberData_createdAt_false (rv : InitResolved)
    (uid store_id workspace_slug : String) (tsUpd : Int) :
    alGet (initMemberData rv uid store_id workspace_slug tsUpd false) "createdAt" = none := by
  unfold initMemberData
  simp [apply_optional_member_fields, alGet_optSet_ne, alGet]

theorem initMemberData_createdAt_true (rv : InitResolved)
    (uid store_id workspace_slug : String) (tsUpd : Int) :
    alGet (initMemberData rv uid store_id workspace_slug tsUpd true) "createdAt" =
      some (.vTs tsUpd) := by
  unfold initMemberData
  simp only [if_true]
  exact alGet_alSet_self _ _ _

/-- Re-adding `createdAt` with the same timestamp to a freshly built
member payload is the identity. -/
theorem withCreatedAt_initMemberData_true (rv : InitResolved)
    (uid store_id workspace_slug : String) (tsUpd : Int) :
    withCreatedAt (initMemberData rv uid store_id workspace_slug tsUpd true) tsUpd true =
      initMemberData rv uid store_id workspace_slug tsUpd true := by
  unfold withCreatedAt
  simp only [if_true]
  exact alSet_eq_self (initMemberData_createdAt_true rv uid store_id workspace_slug tsUpd)

/-- The email-mirror payload for an already-existing mirror document is
the member payload itself (the `email` re-set writes the value already
present). -/
theorem initEmailData_false_self {member_data : Doc} {ev : Option String}
    (h : alGet member_data "email" = some (optStrVal ev)) (tsUpd : Int) :
    initEmailData member_data ev tsUpd false = member_data := by
  unfold initEmailData withCreatedAt
  simp only [Bool.false_eq_true, if_false]
  exact alSet_eq_self h

theorem billingDetails_nil (p : String) (ce : Int) :
    billingDetails [] p ce =
      [("planId", .vStr p), ("provider", .vStr "paystack"), ("status", .vStr "trial"),
       ("trialEndsAt", .vTs ce)] := by
  simp [billingDetails, setdefaultD, alSet, alGet]

theorem billingDetails_planId (bp : Doc) (p : String) (ce : Int) :
    alGet (billingDetails bp p ce) "planId" = some (.vStr p) := by
  unfold billingDetails
  rw [alGet_iteSet_ne1 _ _ (by decide), alGet_setdefaultD_ne _ _ (by decide),
    alGet_setdefaultD_ne _ _ (by decide)]
  exact alGet_alSet_self _ _ _

/-- Rebuilding the billing block from a block this function already
built (same plan) changes nothing: every `setdefault` finds its key. -/
theorem billingDetails_self (p : String) (ce ce' : Int) :
    billingDetails (billingDetails [] p ce) p ce' = billingDetails [] p ce := by
  rw [billingDetails_nil]
  simp [billingDetails, setdefaultD, alSet, alGet]

theorem initStoreData_updatedAt (rv : InitResolved) (uid ws : String) (bp : Doc)
    (sv csv : String) (iv : Value) (bd : Doc) (cs ce t : Int) (b : Bool) :
    alGet (initStoreData rv uid ws bp sv csv iv bd cs ce t b) "updatedAt" =
      some (.vTs t) := by
  unfold initStoreData
  simp [alGet_iteSet_ne1, alGet_iteSet_ne2, alGet_alSet_ne, alGet_truthySet_ne,
    alGet_setdefaultD_ne, alGet]

theorem initStoreData_workspaceSlug (rv : InitResolved) (uid ws : String) (bp : Doc)
    (sv csv : String) (iv : Value) (bd : Doc) (cs ce t : Int) (b : Bool) :
    alGet (initStoreData rv uid ws bp sv csv iv bd cs ce t b) "workspaceSlug" =
      some (.vStr ws) := by
  unfold initStoreData
  simp [alGet_iteSet_ne1, alGet_iteSet_ne2, alGet_alSet_ne, alGet_truthySet_ne,
    alGet_setdefaultD_ne, alGet]

theorem initStoreData_slug (rv : InitResolved) (uid ws : String) (bp : Doc)
    (sv csv : String) (iv : Value) (bd : Doc) (cs ce t : Int) (b : Bool) :
    alGet (initStoreData rv uid ws bp sv csv iv bd cs ce t b) "slug" = none := by
  unfold initStoreData
  simp [alGet_iteSet_ne1, alGet_iteSet_ne2, alGet_alSet_ne, alGet_truthySet_ne,
    alGet_setdefaultD_ne, alGet]

theorem initStoreData_storeSlug (rv : InitResolved) (uid ws : String) (bp : Doc)
    (sv csv : String) (iv : Value) (bd : Doc) (cs ce t : Int) (b : Bool) :
    alGet (initStoreData rv uid ws bp sv csv iv bd cs ce t b) "storeSlug" = none := by
  unfold initStoreData
  simp [alGet_iteSet_ne1, alGet_iteSet_ne2, alGet_alSet_ne, alGet_truthySet_ne,
    alGet_setdefaultD_ne, alGet]

theorem initStoreData_planId (rv : InitResolved) (uid ws : String) (bp : Doc)
    (sv csv : String) (iv : Value) (bd : Doc) (cs ce t : Int) (b : Bool) :
    alGet (initStoreData rv uid ws bp sv csv iv bd cs ce t b) "planId" = none := by
  unfold initStoreData
  simp [alGet_iteSet_ne1, alGet_iteSet_ne2, alGet_alSet_ne, alGet_truthySet_ne,
    alGet_setdefaultD_ne, alGet]

theorem initStoreData_billing (rv : InitResolved) (uid ws : String) (bp : Doc)
    (sv csv : String) (iv : Value) (bd : Doc) (cs ce t : Int) (b : Bool) :
    alGet (initStoreData rv uid ws bp sv csv iv bd cs ce t b) "billing" =
      some (.vMap bd) := by
  unfold initStoreData
  simp [alGet_iteSet_ne1, alGet_iteSet_ne2, alGet_alSet_ne, alGet_alSet_self,
    alGet_truthySet_ne, alGet_setdefaultD_ne, alGet]

theorem initStoreData_status (rv : InitResolved) (uid ws : String) (bp : Doc)
    (sv csv : String) (iv : Value) (bd : Doc) (cs ce t : Int) (b : Bool) :
    alGet (initStoreData rv uid ws bp sv csv iv bd cs ce t b) "status" =
      some (.vStr sv) := by
  unfold initStoreData
  simp [alGet_iteSet_ne1, alGet_iteSet_ne2, alGet_alSet_ne, alGet_alSet_self,
    alGet_truthySet_ne, alGet_setdefaultD_ne, alGet, alSet]

theorem initStoreData_contractStatus (rv : InitResolved) (uid ws : String) (bp : Doc)
    (sv csv : String) (iv : Value) (bd : Doc) (cs ce t : Int) (b : Bool) :
    alGet (initStoreData rv uid ws bp sv csv iv bd cs ce t b) "contractStatus" =
      some (.vStr csv) := by
  unfold initStoreData
  simp [alGet_iteSet_ne1, alGet_iteSet_ne2, alGet_alSet_ne, alGet_alSet_self,
    alGet_truthySet_ne, alGet_setdefaultD_ne, alGet, alSet]

theorem initStoreData_inventorySummary (rv : InitResolved) (uid ws : String) (bp : Doc)
    (sv csv : String) (iv : Value) (bd : Doc) (cs ce t : Int) (b : Bool) :
    alGet (initStoreData rv uid ws bp sv csv iv bd cs ce t b) "inventorySummary" =
      some iv := by
  unfold initStoreData
  simp [alGet_iteSet_ne1, alGet_iteSet_ne2, alGet_alSet_ne, alGet_alSet_self,
    alGet_truthySet_ne, alGet_setdefaultD_ne, setdefaultD, alGet, alSet]

theorem initStoreData_contractStart (rv : InitResolved) (uid ws : String) (bp : Doc)
    (sv csv : String) (iv : Value) (bd : Doc) (cs ce t : Int) (b : Bool) :
    alGet (initStoreData rv uid ws bp sv csv iv bd cs ce t b) "contractStart" =
      some (.vTs cs) := by
  unfold initStoreData
  simp [alGet_iteSet_ne1, alGet_iteSet_ne2, alGet_alSet_ne, alGet_alSet_self,
    alGet_truthySet_ne, alGet_setdefaultD_ne, setdefaultD, alGet, alSet]

theorem initStoreData_contractEnd (rv : InitResolved) (uid ws : String) (bp : Doc)
    (sv csv : String) (iv : Value) (bd : Doc) (cs ce t : Int) (b : Bool) :
    alGet (initStoreData rv uid ws bp sv csv iv bd cs ce t b) "contractEnd" =
      some (.vTs ce) := by
  unfold initStoreData
  simp [alGet_iteSet_ne1, alGet_iteSet_ne2, alGet_alSet_ne, alGet_alSet_self,
    alGet_truthySet_ne, alGet_setdefaultD_ne, setdefaultD, alGet, alSet]

theorem initStoreData_createdAt_false (rv : InitResolved) (uid ws : String) (bp : Doc)
    (sv csv : String) (iv : Value) (bd : Doc) (cs ce t : Int) :
    alGet (initStoreData rv uid ws bp sv csv iv bd cs ce t false) "createdAt" = none := by
  unfold initStoreData
  simp [alGet_iteSet_ne1, alGet_iteSet_ne2, alGet_alSet_ne, alGet_truthySet_ne,
    alGet_setdefaultD_ne, alGet]

theorem alKeys_iteSet1_nodup {c : Prop} [Decidable c] {d : Doc} (key : String) (v : Value)
    (hnd : (alKeys d).Nodup) : (alKeys (if c then d else alSet d key v)).Nodup := by
  split
  · exact hnd
  · exact alKeys_alSet_nodup _ _ hnd

theorem alKeys_iteSet2_nodup {c : Prop} [Decidable c] {d : Doc} (key : String) (v : Value)
    (hnd : (alKeys d).Nodup) : (alKeys (if c then alSet d key v else d)).Nodup := by
  split
  · exact alKeys_alSet_nodup _ _ hnd
  · exact hnd

theorem initStoreData_nodup (rv : InitResolved) (uid ws : String) (bp : Doc)
    (sv csv : String) (iv : Value) (bd : Doc) (cs ce t : Int) (b : Bool) :
    (alKeys (initStoreData rv uid ws bp sv csv iv bd cs ce t b)).Nodup := by
  unfold initStoreData
  apply alKeys_iteSet1_nodup
  apply alKeys_iteSet1_nodup
  apply alKeys_iteSet2_nodup
  apply alKeys_alSet_nodup
  apply alKeys_truthySet_nodup
  apply alKeys_truthySet_nodup
  apply alKeys_truthySet_nodup
  apply alKeys_truthySet_nodup
  apply alKeys_truthySet_nodup
  apply alKeys_truthySet_nodup
  apply alKeys_truthySet_nodup
  apply alKeys_setdefaultD_nodup
  apply alKeys_iteSet1_nodup
  apply alKeys_iteSet1_nodup
  simp [alKeys]

theorem initWorkspaceData_updatedAt (rv : InitResolved) (uid sid ws P : String)
    (sv csv pv : String) (cs ce t : Int) (b : Bool) :
    alGet (initWorkspaceData rv uid sid ws P sv csv pv cs ce t b) "updatedAt" =
      some (.vTs t) := by
  unfold initWorkspaceData
  simp [apply_optional_workspace_fields, alGet_iteSet_ne1, alGet_iteSet_ne2,
    alGet_alSet_ne, alGet_truthySet_ne, alGet_optSet_ne, alGet_setdefaultD_ne, alGet,
    apply_ite (fun d => alGet d "updatedAt"), apply_ite (fun d => alGet d "createdAt")]

theorem initWorkspaceData_status (rv : InitResolved) (uid sid ws P : String)
    (sv csv pv : String) (cs ce t : Int) (b : Bool) :
    alGet (initWorkspaceData rv uid sid ws P sv csv pv cs ce t b) "status" =
      some (.vStr sv) := by
  unfold initWorkspaceData
  simp [apply_optional_workspace_fields, alGet_iteSet_ne1, alGet_iteSet_ne2,
    alGet_alSet_ne, alGet_alSet_self, alGet_truthySet_ne, alGet_optSet_ne,
    alGet_setdefaultD_ne, setdefaultD, alGet, alSet,
    apply_ite (fun d => alGet d "status")]

theorem initWorkspaceData_contractStatus (rv : InitResolved) (uid sid ws P : String)
    (sv csv pv : String) (cs ce t : Int) (b : Bool) :
    alGet (initWorkspaceData rv uid sid ws P sv csv pv cs ce t b) "contractStatus" =
      some (.vStr csv) := by
  unfold initWorkspaceData
  simp [apply_optional_workspace_fields, alGet_iteSet_ne1, alGet_iteSet_ne2,
    alGet_alSet_ne, alGet_alSet_self, alGet_truthySet_ne, alGet_optSet_ne,
    alGet_setdefaultD_ne, setdefaultD, alGet, alSet,
    apply_ite (fun d => alGet d "contractStatus")]

theorem initWorkspaceData_paymentStatus (rv : InitResolved) (uid sid ws P : String)
    (sv csv pv : String) (cs ce t : Int) (b : Bool) :
    alGet (initWorkspaceData rv uid sid ws P sv csv pv cs ce t b) "paymentStatus" =
      some (.vStr pv) := by
  unfold initWorkspaceData
  simp [apply_optional_workspace_fields, alGet_iteSet_ne1, alGet_iteSet_ne2,
    alGet_alSet_ne, alGet_alSet_self, alGet_truthySet_ne, alGet_optSet_ne,
    alGet_setdefaultD_ne, setdefaultD, alGet, alSet,
    apply_ite (fun d => alGet d "paymentStatus")]

theorem initWorkspaceData_createdAt_false (rv : InitResolved) (uid sid ws P : String)
    (sv csv pv : String) (cs ce t : Int) :
    alGet (initWorkspaceData rv uid sid ws P sv csv pv cs ce t false) "createdAt" =
      none := by
  unfold initWorkspaceData
  simp [apply_optional_workspace_fields, alGet_iteSet_ne1, alGet_iteSet_ne2,
    alGet_alSet_ne, alGet_truthySet_ne, alGet_optSet_ne, alGet_setdefaultD_ne, alGet,
    apply_ite (fun d => alGet d "updatedAt"), apply_ite (fun d => alGet d "createdAt")]

theorem initWorkspaceData_nodup (rv : InitResolved) (uid sid ws P : String)
    (sv csv pv : String) (cs ce t : Int) (b : Bool) :
    (alKeys (initWorkspaceData rv uid sid ws P sv csv pv cs ce t b)).Nodup := by
  unfold initWorkspaceData apply_optional_workspace_fields
  apply alKeys_setdefaultD_nodup
  apply alKeys_setdefaultD_nodup
  apply alKeys_setdefaultD_nodup
  apply alKeys_iteSet1_nodup
  apply alKeys_iteSet1_nodup
  apply alKeys_optSet_nodup
  apply alKeys_truthySet_nodup
  apply alKeys_truthySet_nodup
  apply alKeys_truthySet_nodup
  apply alKeys_truthySet_nodup
  apply alKeys_truthySet_nodup
  apply alKeys_truthySet_nodup
  apply alKeys_truthySet_nodup
  apply alKeys_iteSet2_nodup
  simp [alKeys]

/-- Claim-side formalisation device: a document with `updatedAt`
rewritten to `t` (the "only updatedAt changed" relation). -/
def touchUpdatedAt (t : Int) (d : Doc) : Doc := alSet d "updatedAt" (.vTs t)

/-- Every document of a collection with `updatedAt` rewritten. -/
def mapUpdCol (t : Int) (c : Col) : Col := c.map (fun kv => (kv.1, touchUpdatedAt t kv.2))

/-- Every document of a datastore with `updatedAt` rewritten. -/
def mapUpdFs (t : Int) (fs : Fs) : Fs := fs.map (fun kv => (kv.1, mapUpdCol t kv.2))

/-- The member payloads of a first (`isNew`) and a repeated run agree
outside `updatedAt`/`createdAt`. -/
theorem initMemberData_agree (rv : InitResolved) (u s ws : String) (t1 t2 : Int) :
    agreeOff ["updatedAt", "createdAt"] (initMemberData rv u s ws t1 true)
      (initMemberData rv u s ws t2 false) := by
  unfold initMemberData
  simp only [if_true, Bool.false_eq_true, if_false]
  refine agreeOff_alSet_left _ (by decide) ?_
  refine agreeOff_apply_optional_member_fields _ _ _ _ _ ?_
  have hb : ([("uid", Value.vStr u),
      ("email", optStrVal rv.email_value),
      ("role", Value.vStr "owner"),
      ("storeId", Value.vStr s),
      ("phone", optStrVal rv.resolved_phone),
      ("firstSignupEmail", optStrVal rv.resolved_first_signup_email),
      ("invitedBy", Value.vStr u),
      ("updatedAt", Value.vTs t2),
      ("workspaceSlug", Value.vStr ws)] : Doc) =
      alSet [("uid", Value.vStr u),
        ("email", optStrVal rv.email_value),
        ("role", Value.vStr "owner"),
        ("storeId", Value.vStr s),
        ("phone", optStrVal rv.resolved_phone),
        ("firstSignupEmail", optStrVal rv.resolved_first_signup_email),
        ("invitedBy", Value.vStr u),
        ("updatedAt", Value.vTs t1),
        ("workspaceSlug", Value.vStr ws)] "updatedAt" (.vTs t2) := by
    simp [alSet]
  rw [hb]
  exact agreeOff_alSet_right _ (by decide)

/-- The store payloads of a first and a repeated run (same resolved
values, any billing-payload bases) agree outside `updatedAt`/`createdAt`. -/
theorem initStoreData_agree (rv : InitResolved) (u ws : String) (bp1 bp2 : Doc)
    (sv csv : String) (iv : Value) (bd : Doc) (cs ce t1 t2 : Int) :
    agreeOff ["updatedAt", "createdAt"]
      (initStoreData rv u ws bp1 sv csv iv bd cs ce t1 true)
      (initStoreData rv u ws bp2 sv csv iv bd cs ce t2 false) := by
  unfold initStoreData
  simp only [if_true, Bool.false_eq_true, if_false]
  refine agreeOff_guard _ (by decide) ?_
  refine agreeOff_guard _ (by decide) ?_
  refine agreeOff_alSet_left _ (by decide) ?_
  refine agreeOff_alSet_heal _ _ ?_
  refine agreeOff_truthySet _ _ ?_
  refine agreeOff_truthySet _ _ ?_
  refine agreeOff_truthySet _ _ ?_
  refine agreeOff_truthySet _ _ ?_
  refine agreeOff_truthySet _ _ ?_
  refine agreeOff_truthySet _ _ ?_
  refine agreeOff_truthySet _ _ ?_
  refine agreeOff_setdefaultD _ (by decide) ?_
  refine agreeOff_guard _ (by decide) ?_
  refine agreeOff_guard _ (by decide) ?_
  have hb : ([("ownerId", Value.vStr u),
      ("updatedAt", Value.vTs t2),
      ("workspaceSlug", Value.vStr ws),
      ("billing", Value.vMap bp2)] : Doc) =
      alSet (alSet [("ownerId", Value.vStr u),
        ("updatedAt", Value.vTs t1),
        ("workspaceSlug", Value.vStr ws),
        ("billing", Value.vMap bp1)] "updatedAt" (.vTs t2)) "billing" (.vMap bp2) := by
    simp [alSet]
  rw [hb]
  exact agreeOff_trans (agreeOff_alSet_right _ (by decide))
    (agreeOff_alSet_right _ (by decide))

/-- The workspace payloads of a first and a repeated run agree outside
`updatedAt`/`createdAt`. -/
theorem initWorkspaceData_agree (rv : InitResolved) (u sid ws P : String)
    (sv csv pv : String) (cs ce t1 t2 : Int) :
    agreeOff ["updatedAt", "createdAt"]
      (initWorkspaceData rv u sid ws P sv csv pv cs ce t1 true)
      (initWorkspaceData rv u sid ws P sv csv pv cs ce t2 false) := by
  unfold initWorkspaceData
  simp only [if_true, Bool.false_eq_true, if_false]
  refine agreeOff_setdefaultD _ (by decide) ?_
  refine agreeOff_setdefaultD _ (by decide) ?_
  refine agreeOff_setdefaultD _ (by decide) ?_
  refine agreeOff_guard _ (by decide) ?_
  refine agreeOff_guard _ (by decide) ?_
  refine agreeOff_apply_optional_workspace_fields _ _ _ _ _ _ _ ?_
  refine agreeOff_alSet_left _ (by decide) ?_
  have hb : ([("slug", Value.vStr ws),
      ("storeId", Value.vStr sid),
      ("ownerId", Value.vStr u),
      ("updatedAt", Value.vTs t2),
      ("planId", Value.vStr P)] : Doc) =
      alSet [("slug", Value.vStr ws),
        ("storeId", Value.vStr sid),
        ("ownerId", Value.vStr u),
        ("updatedAt", Value.vTs t1),
        ("planId", Value.vStr P)] "updatedAt" (.vTs t2) := by
    simp [alSet]
  rw [hb]
  exact agreeOff_alSet_right _ (by decide)

/-- The email-mirror payload of a first run agrees with the repeated
member payload outside `updatedAt`/`createdAt`. -/
theorem initEmailData_agree {md1 m2 : Doc} (ev : Option String) (t1 : Int)
    (hagree : agreeOff ["updatedAt", "createdAt"] md1 m2)
    (hem : alGet m2 "email" = some (optStrVal ev)) :
    agreeOff ["updatedAt", "createdAt"] (initEmailData md1 ev t1 true) m2 := by
  unfold initEmailData withCreatedAt
  simp only [if_true]
  intro k hk
  have hkc : k ≠ "createdAt" := fun hh => hk (by simp [hh])
  rw [alGet_alSet_ne _ _ hkc]
  by_cases hke : k = "email"
  · subst hke
    rw [alGet_alSet_self]
    exact hem.symm
  · rw [alGet_alSet_ne _ _ hke]
    exact hagree k hk

/-- Merging a repeated payload into a document it agrees with outside
`updatedAt`/`createdAt` (the payload re-carrying `updatedAt` and no
`createdAt`) rewrites exactly `updatedAt`. -/
theorem merge_touch {D P2 : Doc} {t2 : Int}
    (hnd : (alKeys P2).Nodup)
    (hupd : alGet P2 "updatedAt" = some (.vTs t2))
    (hcA : alGet P2 "createdAt" = none)
    (hD : agreeOff ["updatedAt", "createdAt"] D P2) :
    dictUpdate D P2 = alSet D "updatedAt" (.vTs t2) := by
  refine dictUpdate_single_change hnd hupd ?_
  intro k v hget hne
  by_cases hk : k = "createdAt"
  · subst hk
    rw [hcA] at hget
    cases hget
  · have hks : k ∉ ["updatedAt", "createdAt"] := by simp [hne, hk]
    rw [hD k hks]
    exact hget

theorem get_optional_string_vStr (s : String) :
    get_optional_string (.vStr s) =
      if (!(pyStrip s).isEmpty) = true then some (pyStrip s) else none := rfl

theorem get_optional_string_strip_getD {uid : String} (hstrip : pyStrip uid = uid) :
    (get_optional_string (.vStr uid)).getD uid = uid := by
  rw [get_optional_string_vStr, hstrip]
  by_cases h : uid.isEmpty <;> simp [h]

/-- With a strip-stable uid, re-deriving the workspace slug from a store
whose `workspaceSlug` is that uid gives the uid back. -/
theorem workspace_slug_self {uid : String} (hstrip : pyStrip uid = uid) :
    normalize_workspace_slug
      (optOr (optOr (get_optional_string (.vStr uid)) none) none) uid = uid := by
  rw [get_optional_string_vStr, hstrip]
  by_cases h : uid.isEmpty
  · simp [h, optOr, normalize_workspace_slug]
  · simp [h, optOr, normalize_workspace_slug, hstrip]

/-- Feeding the previously resolved plan id back through the billing
fallback chain resolves to the same plan id. -/
theorem resolved_plan_self (q : Option String) :
    (optOr q (optOr (normalize_plan_id (.vStr ((optOr q none).getD "starter"))) none)).getD
        "starter" = (optOr q none).getD "starter" := by
  cases q with
  | some p => rfl
  | none =>
      have h : normalize_plan_id (.vStr "starter") = some "starter" := by decide
      simp [optOr, h]

theorem update_user_claims_owner_empty (uid : String) :
    update_user_claims uid (.vStr "owner") [] =
      ([("role", .vStr "owner")],
       [(uid, ⟨uid, none, none, [("role", .vStr "owner")]⟩)]) := by
  simp [update_user_claims, ensureUid, setCustomUserClaims, alGet, alSet, alPop, List.foldl]

theorem update_user_claims_owner_again (uid : String) :
    update_user_claims uid (.vStr "owner")
        [(uid, ⟨uid, none, none, [("role", .vStr "owner")]⟩)] =
      ([("role", .vStr "owner")],
       [(uid, ⟨uid, none, none, [("role", .vStr "owner")]⟩)]) := by
  simp [update_user_claims, ensureUid, setCustomUserClaims, alGet, alSet, alPop, List.foldl]

theorem billingPayloadOf_get {store : Doc} {bd : Doc}
    (h : alGet store "billing" = some (.vMap bd)) : billingPayloadOf store = bd := by
  unfold billingPayloadOf
  rw [h]

/-- First run from the empty world, no usable token email: explicit
result and world. -/
theorem initStoreCore_first_run_noemail (rv : InitResolved) (uid : String) (t1 n1 : Int)
    (hemail : strOptTruthy rv.normalized_email = false) :
    initStoreCore rv uid World.empty t1 n1 =
      (.ok (.vMap
        [("ok", .vBool true),
         ("storeId", .vStr uid),
         ("claims", .vMap [("role", .vStr "owner")]),
         ("teamMember", .vMap [("id", .vStr uid),
           ("data", .vMap (serialize_firestore_data (initMemberData rv uid uid uid t1 true)))]),
         ("store", .vMap [("id", .vStr uid),
           ("data", .vMap (serialize_firestore_data (initStoreData rv uid uid []
             "Active" "Active" (.vMap defaultInventorySummary)
             (billingDetails [] ((optOr rv.requested_plan_id none).getD "starter")
               (n1 + 1209600000))
             n1 (n1 + 1209600000) t1 true)))]),
         ("workspace", .vMap [("id", .vStr uid),
           ("data", .vMap (serialize_firestore_data (initWorkspaceData rv uid uid uid
             ((optOr rv.requested_plan_id none).getD "starter") "active" "active" "trial"
             n1 (n1 + 1209600000) t1 true)))])]),
       ⟨[("teamMembers", [(uid, initMemberData rv uid uid uid t1 true)])],
        [("teamMembers", [(uid, initMemberData rv uid uid uid t1 true)]),
         ("stores", [(uid, initStoreData rv uid uid [] "Active" "Active"
            (.vMap defaultInventorySummary)
            (billingDetails [] ((optOr rv.requested_plan_id none).getD "starter")
              (n1 + 1209600000)) n1 (n1 + 1209600000) t1 true)]),
         ("workspaces", [(uid, initWorkspaceData rv uid uid uid
            ((optOr rv.requested_plan_id none).getD "starter") "active" "active" "trial"
            n1 (n1 + 1209600000) t1 true)])],
        [(uid, ⟨uid, none, none, [("role", .vStr "owner")]⟩)]⟩) := by
  have hD : max (14:Int) 0 * 24 * 60 * 60 * 1000 = 1209600000 := by decide
  unfold initStoreCore
  simp [fsDoc, fsSet, docSetIn, alGet, alSet, normEntries_eq, billingPayloadOf,
    get_billing_config, normalize_plan_id, optOr, to_timestamp, normalize_workspace_slug,
    get_optional_string, vTruthy, withCreatedAt_initMemberData_true, hemail, hD,
    update_user_claims_owner_empty, World.empty]

theorem get_optional_string_vNone : get_optional_string .vNone = none := rfl

theorem normalize_plan_id_vNone : normalize_plan_id .vNone = none := rfl

/-- Second run over the world of the first (no email case): the same
ids come back and every stored document gets exactly `updatedAt`
rewritten. -/
theorem initStoreCore_second_run_noemail (rv : InitResolved) (uid : String) (t1 n1 t2 n2 : Int)
    (hstrip : pyStrip uid = uid)
    (hemail : strOptTruthy rv.normalized_email = false) :
    initStoreCore rv uid
      ⟨[("teamMembers", [(uid, initMemberData rv uid uid uid t1 true)])],
       [("teamMembers", [(uid, initMemberData rv uid uid uid t1 true)]),
        ("stores", [(uid, initStoreData rv uid uid [] "Active" "Active"
           (.vMap defaultInventorySummary)
           (billingDetails [] ((optOr rv.requested_plan_id none).getD "starter")
             (n1 + 1209600000)) n1 (n1 + 1209600000) t1 true)]),
        ("workspaces", [(uid, initWorkspaceData rv uid uid uid
           ((optOr rv.requested_plan_id none).getD "starter") "active" "active" "trial"
           n1 (n1 + 1209600000) t1 true)])],
       [(uid, ⟨uid, none, none, [("role", .vStr "owner")]⟩)]⟩ t2 n2 =
      (.ok (.vMap
        [("ok", .vBool true),
         ("storeId", .vStr uid),
         ("claims", .vMap [("role", .vStr "owner")]),
         ("teamMember", .vMap [("id", .vStr uid),
           ("data", .vMap (serialize_firestore_data (initMemberData rv uid uid uid t2 false)))]),
         ("store", .vMap [("id", .vStr uid),
           ("data", .vMap (serialize_firestore_data (initStoreData rv uid uid
             (billingDetails [] ((optOr rv.requested_plan_id none).getD "starter")
               (n1 + 1209600000))
             "Active" "Active" (.vMap defaultInventorySummary)
             (billingDetails [] ((optOr rv.requested_plan_id none).getD "starter")
               (n1 + 1209600000))
             n1 (n1 + 1209600000) t2 false)))]),
         ("workspace", .vMap [("id", .vStr uid),
           ("data", .vMap (serialize_firestore_data (initWorkspaceData rv uid uid uid
             ((optOr rv.requested_plan_id none).getD "starter") "active" "active" "trial"
             n1 (n1 + 1209600000) t2 false)))])]),
       ⟨[("teamMembers", [(uid, alSet (initMemberData rv uid uid uid t1 true)
           "updatedAt" (.vTs t2))])],
        [("teamMembers", [(uid, alSet (initMemberData rv uid uid uid t1 true)
           "updatedAt" (.vTs t2))]),
         ("stores", [(uid, alSet (initStoreData rv uid uid [] "Active" "Active"
            (.vMap defaultInventorySummary)
            (billingDetails [] ((optOr rv.requested_plan_id none).getD "starter")
              (n1 + 1209600000)) n1 (n1 + 1209600000) t1 true)
           "updatedAt" (.vTs t2))]),
         ("workspaces", [(uid, alSet (initWorkspaceData rv uid uid uid
            ((optOr rv.requested_plan_id none).getD "starter") "active" "active" "trial"
            n1 (n1 + 1209600000) t1 true)
           "updatedAt" (.vTs t2))])],
        [(uid, ⟨uid, none, none, [("role", .vStr "owner")]⟩)]⟩) := by
  have hD : max (14:Int) 0 * 24 * 60 * 60 * 1000 = 1209600000 := by decide
  have hA : get_optional_string (.vStr "Active") = some "Active" := by decide
  have hinv : vTruthy (.vMap defaultInventorySummary) = true := by decide
  have ha : get_optional_string (.vStr "active") = some "active" := by decide
  have ht : get_optional_string (.vStr "trial") = some "trial" := by decide
  have hmm : dictUpdate (initMemberData rv uid uid uid t1 true)
      (initMemberData rv uid uid uid t2 false) =
      alSet (initMemberData rv uid uid uid t1 true) "updatedAt" (.vTs t2) :=
    merge_touch (initMemberData_nodup rv uid uid uid t2 false)
      (initMemberData_updatedAt rv uid uid uid t2 false)
      (initMemberData_createdAt_false rv uid uid uid t2)
      (initMemberData_agree rv uid uid uid t1 t2)
  have hss : dictUpdate (initStoreData rv uid uid [] "Active" "Active"
      (.vMap defaultInventorySummary)
      (billingDetails [] ((optOr rv.requested_plan_id none).getD "starter")
        (n1 + 1209600000)) n1 (n1 + 1209600000) t1 true)
      (initStoreData rv uid uid
        (billingDetails [] ((optOr rv.requested_plan_id none).getD "starter")
          (n1 + 1209600000))
        "Active" "Active" (.vMap defaultInventorySummary)
        (billingDetails [] ((optOr rv.requested_plan_id none).getD "starter")
          (n1 + 1209600000))
        n1 (n1 + 1209600000) t2 false) =
      alSet (initStoreData rv uid uid [] "Active" "Active"
        (.vMap defaultInventorySummary)
        (billingDetails [] ((optOr rv.requested_plan_id none).getD "starter")
          (n1 + 1209600000)) n1 (n1 + 1209600000) t1 true)
        "updatedAt" (.vTs t2) :=
    merge_touch (initStoreData_nodup rv uid uid _ "Active" "Active" _ _ n1 _ t2 false)
      (initStoreData_updatedAt rv uid uid _ "Active" "Active" _ _ n1 _ t2 false)
      (initStoreData_createdAt_false rv uid uid _ "Active" "Active" _ _ n1 _ t2)
      (initStoreData_agree rv uid uid [] _ "Active" "Active" _ _ n1 _ t1 t2)
  have hww : dictUpdate (initWorkspaceData rv uid uid uid
      ((optOr rv.requested_plan_id none).getD "starter") "active" "active" "trial"
      n1 (n1 + 1209600000) t1 true)
      (initWorkspaceData rv uid uid uid
        ((optOr rv.requested_plan_id none).getD "starter") "active" "active" "trial"
        n1 (n1 + 1209600000) t2 false) =
      alSet (initWorkspaceData rv uid uid uid
        ((optOr rv.requested_plan_id none).getD "starter") "active" "active" "trial"
        n1 (n1 + 1209600000) t1 true)
        "updatedAt" (.vTs t2) :=
    merge_touch (initWorkspaceData_nodup rv uid uid uid _ "active" "active" "trial" n1 _ t2 false)
      (initWorkspaceData_updatedAt rv uid uid uid _ "active" "active" "trial" n1 _ t2 false)
      (initWorkspaceData_createdAt_false rv uid uid uid _ "active" "active" "trial" n1 _ t2)
      (initWorkspaceData_agree rv uid uid uid _ "active" "active" "trial" n1 _ t1 t2)
  unfold initStoreCore
  simp [fsDoc, fsSet, docSetIn, alGet, alSet, normEntries_eq, billingPayloadOf,
    get_billing_config, to_timestamp, hemail, hD, hA, ha, ht,
    get_optional_string_vNone, normalize_plan_id_vNone,
    initMemberData_storeId, initStoreData_workspaceSlug, initStoreData_slug,
    initStoreData_storeSlug, initStoreData_planId, initStoreData_billing,
    initStoreData_status, initStoreData_contractStatus, initStoreData_inventorySummary,
    initStoreData_contractStart, initStoreData_contractEnd,
    initWorkspaceData_status, initWorkspaceData_contractStatus,
    initWorkspaceData_paymentStatus,
    billingDetails_planId, billingDetails_self, resolved_plan_self,
    get_optional_string_strip_getD hstrip, workspace_slug_self hstrip,
    hinv, withCreatedAt,
    hmm, hss, hww, update_user_claims_owner_again]

/-- First run when the normalized email coincides with the uid: the
mirror write collapses onto the uid document. -/
theorem initStoreCore_first_run_self_email (rv : InitResolved) (uid : String) (t1 n1 : Int)
    (hne : rv.normalized_email = some uid) :
    initStoreCore rv uid World.empty t1 n1 =
      (.ok (.vMap
        [("ok", .vBool true),
         ("storeId", .vStr uid),
         ("claims", .vMap [("role", .vStr "owner")]),
         ("teamMember", .vMap [("id", .vStr uid),
           ("data", .vMap (serialize_firestore_data (initMemberData rv uid uid uid t1 true)))]),
         ("store", .vMap [("id", .vStr uid),
           ("data", .vMap (serialize_firestore_data (initStoreData rv uid uid []
             "Active" "Active" (.vMap defaultInventorySummary)
             (billingDetails [] ((optOr rv.requested_plan_id none).getD "starter")
               (n1 + 1209600000))
             n1 (n1 + 1209600000) t1 true)))]),
         ("workspace", .vMap [("id", .vStr uid),
           ("data", .vMap (serialize_firestore_data (initWorkspaceData rv uid uid uid
             ((optOr rv.requested_plan_id none).getD "starter") "active" "active" "trial"
             n1 (n1 + 1209600000) t1 true)))])]),
       ⟨[("teamMembers", [(uid, initMemberData rv uid uid uid t1 true)])],
        [("teamMembers", [(uid, initMemberData rv uid uid uid t1 true)]),
         ("stores", [(uid, initStoreData rv uid uid [] "Active" "Active"
            (.vMap defaultInventorySummary)
            (billingDetails [] ((optOr rv.requested_plan_id none).getD "starter")
              (n1 + 1209600000)) n1 (n1 + 1209600000) t1 true)]),
         ("workspaces", [(uid, initWorkspaceData rv uid uid uid
            ((optOr rv.requested_plan_id none).getD "starter") "active" "active" "trial"
            n1 (n1 + 1209600000) t1 true)])],
        [(uid, ⟨uid, none, none, [("role", .vStr "owner")]⟩)]⟩) := by
  have hD : max (14:Int) 0 * 24 * 60 * 60 * 1000 = 1209600000 := by decide
  have hep : initEmailData (initMemberData rv uid uid uid t1 true) rv.email_value t1 false =
      initMemberData rv uid uid uid t1 true :=
    initEmailData_false_self (initMemberData_email rv uid uid uid t1 true) t1
  have hdu : dictUpdate (initMemberData rv uid uid uid t1 true)
      (initMemberData rv uid uid uid t1 true) = initMemberData rv uid uid uid t1 true :=
    dictUpdate_eq_self (fun kv hkv =>
      alGet_of_mem_nodup (initMemberData_nodup rv uid uid uid t1 true) hkv)
  unfold initStoreCore
  simp [fsDoc, fsSet, docSetIn, alGet, alSet, normEntries_eq, billingPayloadOf,
    get_billing_config, normalize_plan_id, optOr, to_timestamp, normalize_workspace_slug,
    get_optional_string, vTruthy, withCreatedAt_initMemberData_true, hne, hD,
    hep, hdu, update_user_claims_owner_empty, World.empty]

/-- Second run in the email-equals-uid case. -/
theorem initStoreCore_second_run_self_email (rv : InitResolved) (uid : String) (t1 n1 t2 n2 : Int)
    (hstrip : pyStrip uid = uid)
    (hne : rv.normalized_email = some uid) :
    initStoreCore rv uid
      ⟨[("teamMembers", [(uid, initMemberData rv uid uid uid t1 true)])],
       [("teamMembers", [(uid, initMemberData rv uid uid uid t1 true)]),
        ("stores", [(uid, initStoreData rv uid uid [] "Active" "Active"
           (.vMap defaultInventorySummary)
           (billingDetails [] ((optOr rv.requested_plan_id none).getD "starter")
             (n1 + 1209600000)) n1 (n1 + 1209600000) t1 true)]),
        ("workspaces", [(uid, initWorkspaceData rv uid uid uid
           ((optOr rv.requested_plan_id none).getD "starter") "active" "active" "trial"
           n1 (n1 + 1209600000) t1 true)])],
       [(uid, ⟨uid, none, none, [("role", .vStr "owner")]⟩)]⟩ t2 n2 =
      (.ok (.vMap
        [("ok", .vBool true),
         ("storeId", .vStr uid),
         ("claims", .vMap [("role", .vStr "owner")]),
         ("teamMember", .vMap [("id", .vStr uid),
           ("data", .vMap (serialize_firestore_data (initMemberData rv uid uid uid t2 false)))]),
         ("store", .vMap [("id", .vStr uid),
           ("data", .vMap (serialize_firestore_data (initStoreData rv uid uid
             (billingDetails [] ((optOr rv.requested_plan_id none).getD "starter")
               (n1 + 1209600000))
             "Active" "Active" (.vMap defaultInventorySummary)
             (billingDetails [] ((optOr rv.requested_plan_id none).getD "starter")
               (n1 + 1209600000))
             n1 (n1 + 1209600000) t2 false)))]),
         ("workspace", .vMap [("id", .vStr uid),
           ("data", .vMap (serialize_firestore_data (initWorkspaceData rv uid uid uid
             ((optOr rv.requested_plan_id none).getD "starter") "active" "active" "trial"
             n1 (n1 + 1209600000) t2 false)))])]),
       ⟨[("teamMembers", [(uid, alSet (initMemberData rv uid uid uid t1 true)
           "updatedAt" (.vTs t2))])],
        [("teamMembers", [(uid, alSet (initMemberData rv uid uid uid t1 true)
           "updatedAt" (.vTs t2))]),
         ("stores", [(uid, alSet (initStoreData rv uid uid [] "Active" "Active"
            (.vMap defaultInventorySummary)
            (billingDetails [] ((optOr rv.requested_plan_id none).getD "starter")
              (n1 + 1209600000)) n1 (n1 + 1209600000) t1 true)
           "updatedAt" (.vTs t2))]),
         ("workspaces", [(uid, alSet (initWorkspaceData rv uid uid uid
            ((optOr rv.requested_plan_id none).getD "starter") "active" "active" "trial"
            n1 (n1 + 1209600000) t1 true)
           "updatedAt" (.vTs t2))])],
        [(uid, ⟨uid, none, none, [("role", .vStr "owner")]⟩)]⟩) := by
  have hD : max (14:Int) 0 * 24 * 60 * 60 * 1000 = 1209600000 := by decide
  have hA : get_optional_string (.vStr "Active") = some "Active" := by decide
  have hinv : vTruthy (.vMap defaultInventorySummary) = true := by decide
  have ha : get_optional_string (.vStr "active") = some "active" := by decide
  have ht : get_optional_string (.vStr "trial") = some "trial" := by decide
  have hmm : dictUpdate (initMemberData rv uid uid uid t1 true)
      (initMemberData rv uid uid uid t2 false) =
      alSet (initMemberData rv uid uid uid t1 true) "updatedAt" (.vTs t2) :=
    merge_touch (initMemberData_nodup rv uid uid uid t2 false)
      (initMemberData_updatedAt rv uid uid uid t2 false)
      (initMemberData_createdAt_false rv uid uid uid t2)
      (initMemberData_agree rv uid uid uid t1 t2)
  have hep2 : initEmailData (initMemberData rv uid uid uid t2 false) rv.email_value t2 false =
      initMemberData rv uid uid uid t2 false :=
    initEmailData_false_self (initMemberData_email rv uid uid uid t2 false) t2
  have hmm2 : dictUpdate (alSet (initMemberData rv uid uid uid t1 true)
      "updatedAt" (.vTs t2)) (initMemberData rv uid uid uid t2 false) =
      alSet (initMemberData rv uid uid uid t1 true) "updatedAt" (.vTs t2) :=
    (merge_touch (initMemberData_nodup rv uid uid uid t2 false)
      (initMemberData_updatedAt rv uid uid uid t2 false)
      (initMemberData_createdAt_false rv uid uid uid t2)
      (agreeOff_alSet_left _ (by decide) (initMemberData_agree rv uid uid uid t1 t2))).trans
      (alSet_alSet_self _ _ _ _)
  have hss : dictUpdate (initStoreData rv uid uid [] "Active" "Active"
      (.vMap defaultInventorySummary)
      (billingDetails [] ((optOr rv.requested_plan_id none).getD "starter")
        (n1 + 1209600000)) n1 (n1 + 1209600000) t1 true)
      (initStoreData rv uid uid
        (billingDetails [] ((optOr rv.requested_plan_id none).getD "starter")
          (n1 + 1209600000))
        "Active" "Active" (.vMap defaultInventorySummary)
        (billingDetails [] ((optOr rv.requested_plan_id none).getD "starter")
          (n1 + 1209600000))
        n1 (n1 + 1209600000) t2 false) =
      alSet (initStoreData rv uid uid [] "Active" "Active"
        (.vMap defaultInventorySummary)
        (billingDetails [] ((optOr rv.requested_plan_id none).getD "starter")
          (n1 + 1209600000)) n1 (n1 + 1209600000) t1 true)
        "updatedAt" (.vTs t2) :=
    merge_touch (initStoreData_nodup rv uid uid _ "Active" "Active" _ _ n1 _ t2 false)
      (initStoreData_updatedAt rv uid uid _ "Active" "Active" _ _ n1 _ t2 false)
      (initStoreData_createdAt_false rv uid uid _ "Active" "Active" _ _ n1 _ t2)
      (initStoreData_agree rv uid uid [] _ "Active" "Active" _ _ n1 _ t1 t2)
  have hww : dictUpdate (initWorkspaceData rv uid uid uid
      ((optOr rv.requested_plan_id none).getD "starter") "active" "active" "trial"
      n1 (n1 + 1209600000) t1 true)
      (initWorkspaceData rv uid uid uid
        ((optOr rv.requested_plan_id none).getD "starter") "active" "active" "trial"
        n1 (n1 + 1209600000) t2 false) =
      alSet (initWorkspaceData rv uid uid uid
        ((optOr rv.requested_plan_id none).getD "starter") "active" "active" "trial"
        n1 (n1 + 1209600000) t1 true)
        "updatedAt" (.vTs t2) :=
    merge_touch (initWorkspaceData_nodup rv uid uid uid _ "active" "active" "trial" n1 _ t2 false)
      (initWorkspaceData_updatedAt rv uid uid uid _ "active" "active" "trial" n1 _ t2 false)
      (initWorkspaceData_createdAt_false rv uid uid uid _ "active" "active" "trial" n1 _ t2)
      (initWorkspaceData_agree rv uid uid uid _ "active" "active" "trial" n1 _ t1 t2)
  unfold initStoreCore
  simp [fsDoc, fsSet, docSetIn, alGet, alSet, normEntries_eq, billingPayloadOf,
    get_billing_config, to_timestamp, hne, hD, hA, ha, ht,
    get_optional_string_vNone, normalize_plan_id_vNone,
    initMemberData_storeId, initStoreData_workspaceSlug, initStoreData_slug,
    initStoreData_storeSlug, initStoreData_planId, initStoreData_billing,
    initStoreData_status, initStoreData_contractStatus, initStoreData_inventorySummary,
    initStoreData_contractStart, initStoreData_contractEnd,
    initWorkspaceData_status, initWorkspaceData_contractStatus,
    initWorkspaceData_paymentStatus,
    billingDetails_planId, billingDetails_self, resolved_plan_self,
    get_optional_string_strip_getD hstrip, workspace_slug_self hstrip,
    hinv, withCreatedAt, hep2, hmm2,
    hmm, hss, hww, update_user_claims_owner_again]

/-- First run with a normalized email distinct from the uid: the roster
holds the member document and the mirror. -/
theorem initStoreCore_first_run_email (rv : InitResolved) (uid nes : String) (t1 n1 : Int)
    (hne : rv.normalized_email = some nes)
    (hemail : strOptTruthy rv.normalized_email = true)
    (hnu : ¬(uid = nes)) :
    initStoreCore rv uid World.empty t1 n1 =
      (.ok (.vMap
        [("ok", .vBool true),
         ("storeId", .vStr uid),
         ("claims", .vMap [("role", .vStr "owner")]),
         ("teamMember", .vMap [("id", .vStr uid),
           ("data", .vMap (serialize_firestore_data (initMemberData rv uid uid uid t1 true)))]),
         ("store", .vMap [("id", .vStr uid),
           ("data", .vMap (serialize_firestore_data (initStoreData rv uid uid []
             "Active" "Active" (.vMap defaultInventorySummary)
             (billingDetails [] ((optOr rv.requested_plan_id none).getD "starter")
               (n1 + 1209600000))
             n1 (n1 + 1209600000) t1 true)))]),
         ("workspace", .vMap [("id", .vStr uid),
           ("data", .vMap (serialize_firestore_data (initWorkspaceData rv uid uid uid
             ((optOr rv.requested_plan_id none).getD "starter") "active" "active" "trial"
             n1 (n1 + 1209600000) t1 true)))])]),
       ⟨[("teamMembers", [(uid, initMemberData rv uid uid uid t1 true),
          (nes, initEmailData (initMemberData rv uid uid uid t1 true)
            rv.email_value t1 true)])],
        [("teamMembers", [(uid, initMemberData rv uid uid uid t1 true)]),
         ("stores", [(uid, initStoreData rv uid uid [] "Active" "Active"
            (.vMap defaultInventorySummary)
            (billingDetails [] ((optOr rv.requested_plan_id none).getD "starter")
              (n1 + 1209600000)) n1 (n1 + 1209600000) t1 true)]),
         ("workspaces", [(uid, initWorkspaceData rv uid uid uid
            ((optOr rv.requested_plan_id none).getD "starter") "active" "active" "trial"
            n1 (n1 + 1209600000) t1 true)])],
        [(uid, ⟨uid, none, none, [("role", .vStr "owner")]⟩)]⟩) := by
  have hD : max (14:Int) 0 * 24 * 60 * 60 * 1000 = 1209600000 := by decide
  have hemail2 : strOptTruthy (some nes) = true := by rw [hne] at hemail; exact hemail
  unfold initStoreCore
  simp [fsDoc, fsSet, docSetIn, alGet, alSet, normEntries_eq, billingPayloadOf,
    get_billing_config, normalize_plan_id, optOr, to_timestamp, normalize_workspace_slug,
    get_optional_string, vTruthy, withCreatedAt_initMemberData_true, hne, hemail2, hnu, hD,
    update_user_claims_owner_empty, World.empty]

/-- Second run in the distinct-email case. -/
theorem initStoreCore_second_run_email (rv : InitResolved) (uid nes : String) (t1 n1 t2 n2 : Int)
    (hstrip : pyStrip uid = uid)
    (hne : rv.normalized_email = some nes)
    (hemail : strOptTruthy rv.normalized_email = true)
    (hnu : ¬(uid = nes)) :
    initStoreCore rv uid
      ⟨[("teamMembers", [(uid, initMemberData rv uid uid uid t1 true),
         (nes, initEmailData (initMemberData rv uid uid uid t1 true)
           rv.email_value t1 true)])],
       [("teamMembers", [(uid, initMemberData rv uid uid uid t1 true)]),
        ("stores", [(uid, initStoreData rv uid uid [] "Active" "Active"
           (.vMap defaultInventorySummary)
           (billingDetails [] ((optOr rv.requested_plan_id none).getD "starter")
             (n1 + 1209600000)) n1 (n1 + 1209600000) t1 true)]),
        ("workspaces", [(uid, initWorkspaceData rv uid uid uid
           ((optOr rv.requested_plan_id none).getD "starter") "active" "active" "trial"
           n1 (n1 + 1209600000) t1 true)])],
       [(uid, ⟨uid, none, none, [("role", .vStr "owner")]⟩)]⟩ t2 n2 =
      (.ok (.vMap
        [("ok", .vBool true),
         ("storeId", .vStr uid),
         ("claims", .vMap [("role", .vStr "owner")]),
         ("teamMember", .vMap [("id", .vStr uid),
           ("data", .vMap (serialize_firestore_data (initMemberData rv uid uid uid t2 false)))]),
         ("store", .vMap [("id", .vStr uid),
           ("data", .vMap (serialize_firestore_data (initStoreData rv uid uid
             (billingDetails [] ((optOr rv.requested_plan_id none).getD "starter")
               (n1 + 1209600000))
             "Active" "Active" (.vMap defaultInventorySummary)
             (billingDetails [] ((optOr rv.requested_plan_id none).getD "starter")
               (n1 + 1209600000))
             n1 (n1 + 1209600000) t2 false)))]),
         ("workspace", .vMap [("id", .vStr uid),
           ("data", .vMap (serialize_firestore_data (initWorkspaceData rv uid uid uid
             ((optOr rv.requested_plan_id none).getD "starter") "active" "active" "trial"
             n1 (n1 + 1209600000) t2 false)))])]),
       ⟨[("teamMembers", [(uid, alSet (initMemberData rv uid uid uid t1 true)
           "updatedAt" (.vTs t2)),
          (nes, alSet (initEmailData (initMemberData rv uid uid uid t1 true)
            rv.email_value t1 true) "updatedAt" (.vTs t2))])],
        [("teamMembers", [(uid, alSet (initMemberData rv uid uid uid t1 true)
           "updatedAt" (.vTs t2))]),
         ("stores", [(uid, alSet (initStoreData rv uid uid [] "Active" "Active"
            (.vMap defaultInventorySummary)
            (billingDetails [] ((optOr rv.requested_plan_id none).getD "starter")
              (n1 + 1209600000)) n1 (n1 + 1209600000) t1 true)
           "updatedAt" (.vTs t2))]),
         ("workspaces", [(uid, alSet (initWorkspaceData rv uid uid uid
            ((optOr rv.requested_plan_id none).getD "starter") "active" "active" "trial"
            n1 (n1 + 1209600000) t1 true)
           "updatedAt" (.vTs t2))])],
        [(uid, ⟨uid, none, none, [("role", .vStr "owner")]⟩)]⟩) := by
  have hD : max (14:Int) 0 * 24 * 60 * 60 * 1000 = 1209600000 := by decide
  have hemail2 : strOptTruthy (some nes) = true := by rw [hne] at hemail; exact hemail
  have hA : get_optional_string (.vStr "Active") = some "Active" := by decide
  have hinv : vTruthy (.vMap defaultInventorySummary) = true := by decide
  have ha : get_optional_string (.vStr "active") = some "active" := by decide
  have ht : get_optional_string (.vStr "trial") = some "trial" := by decide
  have hmm : dictUpdate (initMemberData rv uid uid uid t1 true)
      (initMemberData rv uid uid uid t2 false) =
      alSet (initMemberData rv uid uid uid t1 true) "updatedAt" (.vTs t2) :=
    merge_touch (initMemberData_nodup rv uid uid uid t2 false)
      (initMemberData_updatedAt rv uid uid uid t2 false)
      (initMemberData_createdAt_false rv uid uid uid t2)
      (initMemberData_agree rv uid uid uid t1 t2)
  have hep2 : initEmailData (initMemberData rv uid uid uid t2 false) rv.email_value t2 false =
      initMemberData rv uid uid uid t2 false :=
    initEmailData_false_self (initMemberData_email rv uid uid uid t2 false) t2
  have hme : dictUpdate (initEmailData (initMemberData rv uid uid uid t1 true)
      rv.email_value t1 true) (initMemberData rv uid uid uid t2 false) =
      alSet (initEmailData (initMemberData rv uid uid uid t1 true)
        rv.email_value t1 true) "updatedAt" (.vTs t2) :=
    merge_touch (initMemberData_nodup rv uid uid uid t2 false)
      (initMemberData_updatedAt rv uid uid uid t2 false)
      (initMemberData_createdAt_false rv uid uid uid t2)
      (initEmailData_agree rv.email_value t1 (initMemberData_agree rv uid uid uid t1 t2)
        (initMemberData_email rv uid uid uid t2 false))
  have hss : dictUpdate (initStoreData rv uid uid [] "Active" "Active"
      (.vMap defaultInventorySummary)
      (billingDetails [] ((optOr rv.requested_plan_id none).getD "starter")
        (n1 + 1209600000)) n1 (n1 + 1209600000) t1 true)
      (initStoreData rv uid uid
        (billingDetails [] ((optOr rv.requested_plan_id none).getD "starter")
          (n1 + 1209600000))
        "Active" "Active" (.vMap defaultInventorySummary)
        (billingDetails [] ((optOr rv.requested_plan_id none).getD "starter")
          (n1 + 1209600000))
        n1 (n1 + 1209600000) t2 false) =
      alSet (initStoreData rv uid uid [] "Active" "Active"
        (.vMap defaultInventorySummary)
        (billingDetails [] ((optOr rv.requested_plan_id none).getD "starter")
          (n1 + 1209600000)) n1 (n1 + 1209600000) t1 true)
        "updatedAt" (.vTs t2) :=
    merge_touch (initStoreData_nodup rv uid uid _ "Active" "Active" _ _ n1 _ t2 false)
      (initStoreData_updatedAt rv uid uid _ "Active" "Active" _ _ n1 _ t2 false)
      (initStoreData_createdAt_false rv uid uid _ "Active" "Active" _ _ n1 _ t2)
      (initStoreData_agree rv uid uid [] _ "Active" "Active" _ _ n1 _ t1 t2)
  have hww : dictUpdate (initWorkspaceData rv uid uid uid
      ((optOr rv.requested_plan_id none).getD "starter") "active" "active" "trial"
      n1 (n1 + 1209600000) t1 true)
      (initWorkspaceData rv uid uid uid
        ((optOr rv.requested_plan_id none).getD "starter") "active" "active" "trial"
        n1 (n1 + 1209600000) t2 false) =
      alSet (initWorkspaceData rv uid uid uid
        ((optOr rv.requested_plan_id none).getD "starter") "active" "active" "trial"
        n1 (n1 + 1209600000) t1 true)
        "updatedAt" (.vTs t2) :=
    merge_touch (initWorkspaceData_nodup rv uid uid uid _ "active" "active" "trial" n1 _ t2 false)
      (initWorkspaceData_updatedAt rv uid uid uid _ "active" "active" "trial" n1 _ t2 false)
      (initWorkspaceData_createdAt_false rv uid uid uid _ "active" "active" "trial" n1 _ t2)
      (initWorkspaceData_agree rv uid uid uid _ "active" "active" "trial" n1 _ t1 t2)
  unfold initStoreCore
  simp [fsDoc, fsSet, docSetIn, alGet, alSet, normEntries_eq, billingPayloadOf,
    get_billing_config, to_timestamp, hne, hemail2, hnu, hD, hA, ha, ht,
    get_optional_string_vNone, normalize_plan_id_vNone,
    initMemberData_storeId, initStoreData_workspaceSlug, initStoreData_slug,
    initStoreData_storeSlug, initStoreData_planId, initStoreData_billing,
    initStoreData_status, initStoreData_contractStatus, initStoreData_inventorySummary,
    initStoreData_contractStart, initStoreData_contractEnd,
    initWorkspaceData_status, initWorkspaceData_contractStatus,
    initWorkspaceData_paymentStatus,
    billingDetails_planId, billingDetails_self, resolved_plan_self,
    get_optional_string_strip_getD hstrip, workspace_slug_self hstrip,
    hinv, withCreatedAt, hep2, hme,
    hmm, hss, hww, update_user_claims_owner_again]

/-- Core idempotence: a second `initStoreCore` run over the world left
by a first run from the empty world returns the same storeId, workspace
id and serialized contract values, and rewrites exactly `updatedAt` in
every stored document (identity records unchanged). -/
theorem initStoreCore_idem (rv : InitResolved) (uid : String) (t1 n1 t2 n2 : Int)
    (hstrip : pyStrip uid = uid) (v1 : Value) (w1 : World)
    (h1 : initStoreCore rv uid World.empty t1 n1 = (.ok v1, w1)) :
    ∃ v2, initStoreCore rv uid w1 t2 n2 =
        (.ok v2, ⟨mapUpdFs t2 w1.roster, mapUpdFs t2 w1.defaultDb, w1.auth⟩) ∧
      vGet v2 "storeId" = vGet v1 "storeId" ∧
      vGet (vGet v2 "workspace") "id" = vGet (vGet v1 "workspace") "id" ∧
      vGet (vGet (vGet v2 "store") "data") "contractStart" =
        vGet (vGet (vGet v1 "store") "data") "contractStart" ∧
      vGet (vGet (vGet v2 "store") "data") "contractEnd" =
        vGet (vGet (vGet v1 "store") "data") "contractEnd" := by
  by_cases hemail : strOptTruthy rv.normalized_email = true
  · cases hget : rv.normalized_email with
    | none =>
        rw [hget] at hemail
        simp [strOptTruthy] at hemail
    | some nes =>
        by_cases hnu : uid = nes
        · subst hnu
          rw [initStoreCore_first_run_self_email rv uid t1 n1 hget] at h1
          injection h1 with hv hw
          injection hv with hv2
          subst hv2
          subst hw
          exact ⟨_, initStoreCore_second_run_self_email rv uid t1 n1 t2 n2 hstrip hget,
            by simp [vGet, alGet],
            by simp [vGet, alGet],
            by simp [vGet, alGet, alGet_serialize, initStoreData_contractStart, serializeValue],
            by simp [vGet, alGet, alGet_serialize, initStoreData_contractEnd, serializeValue]⟩
        · rw [initStoreCore_first_run_email rv uid nes t1 n1 hget hemail hnu] at h1
          injection h1 with hv hw
          injection hv with hv2
          subst hv2
          subst hw
          exact ⟨_, initStoreCore_second_run_email rv uid nes t1 n1 t2 n2 hstrip hget hemail hnu,
            by simp [vGet, alGet],
            by simp [vGet, alGet],
            by simp [vGet, alGet, alGet_serialize, initStoreData_contractStart, serializeValue],
            by simp [vGet, alGet, alGet_serialize, initStoreData_contractEnd, serializeValue]⟩
  · have hemailF : strOptTruthy rv.normalized_email = false := by
      cases hc : strOptTruthy rv.normalized_email
      · rfl
      · exact absurd hc hemail
    rw [initStoreCore_first_run_noemail rv uid t1 n1 hemailF] at h1
    injection h1 with hv hw
    injection hv with hv2
    subst hv2
    subst hw
    exact ⟨_, initStoreCore_second_run_noemail rv uid t1 n1 t2 n2 hstrip hemailF,
      by simp [vGet, alGet],
      by simp [vGet, alGet],
      by simp [vGet, alGet, alGet_serialize, initStoreData_contractStart, serializeValue],
      by simp [vGet, alGet, alGet_serialize, initStoreData_contractEnd, serializeValue]⟩

/-! ## Claim C1 — owner guard fails closed with no writes -/

/-- **C1**: for every payload and every context whose token role claim is
not (case-insensitively) `owner` — including an absent or non-string
role — `manage_staff_account` raises `permission-denied`
(`unauthenticated` when `context.auth` is `None`), and the returned world
is exactly the input world: no roster document and no identity record or
claims map was created or mutated. -/
theorem C1_owner_guard_no_write (data : Option Value) (ctx : CallableContext)
    (w : World) (ts : Int) :
    (ctx.auth = none →
      manage_staff_account data ctx w ts = (.error unauthenticatedError, w)) ∧
    (∀ a, ctx.auth = some a →
      (∀ s, vGet a.token "role" = .vStr s → pyLower s ≠ "owner") →
      manage_staff_account data ctx w ts =
        (.error ⟨"permission-denied", "Owner access required"⟩, w)) := by
  constructor
  · intro hnone
    simp [manage_staff_account, hnone]
  · intro a ha hrole
    have hnotOwner : get_role_from_token a.token ≠ some "owner" := by
      unfold get_role_from_token
      match hv : vGet a.token "role" with
      | .vNone | .vBool _ | .vInt _ | .vTs _ | .vMap _ => simp
      | .vStr s =>
          show (if VALID_ROLES.contains (pyLower s) = true then some (pyLower s) else none) ≠
            some "owner"
          by_cases hvalid : VALID_ROLES.contains (pyLower s) = true
          · rw [if_pos hvalid]
            intro hcontra
            exact hrole s hv (Option.some.inj hcontra)
          · rw [if_neg hvalid]
            simp
    simp [manage_staff_account, ha, hnotOwner]

/-- Witness for C1 at concrete inputs: a `staff`-role caller and an
unauthenticated caller are both rejected without touching the world. -/
theorem C1_witness :
    manage_staff_account none ⟨some ⟨"x", .vMap [("role", .vStr "staff")]⟩⟩ World.empty 0 =
      (.error ⟨"permission-denied", "Owner access required"⟩, World.empty) ∧
    manage_staff_account none ⟨none⟩ World.empty 0 = (.error unauthenticatedError, World.empty) := by
  constructor
  · exact (C1_owner_guard_no_write none ⟨some ⟨"x", .vMap [("role", .vStr "staff")]⟩⟩
      World.empty 0).2 ⟨"x", .vMap [("role", .vStr "staff")]⟩ rfl
      (by intro s hs; simp [vGet, alGet] at hs; subst hs; decide)
  · exact (C1_owner_guard_no_write none ⟨none⟩ World.empty 0).1 rfl

/-! ## Claim C6 — inactive-status classification -/

/-- Tokenisation as the claim words it: split the lower-cased status on
hyphen, underscore **or space** (spec-side definition, for comparison
with the source's `statusTokens`). -/
def claimStatusTokens (s : String) : List String :=
  (pySplitChar (pyReplaceChar (pyReplaceChar (pyLower s) '_' '-') ' ' '-') '-').filter
    (fun t => !t.isEmpty)

/-- **C6 counterexample**: the claim says a space-separated status such
as `"on hold"` is classified inactive (its space-tokenisation hits the
deny-list), but the source splits only on hyphen/underscore and reports
`"on hold"` as active. -/
theorem C6_counterexample :
    ("hold" ∈ claimStatusTokens "on hold" ∧ "hold" ∈ INACTIVE_STATUS_TOKENS) ∧
      is_inactive_contract_status (some "on hold") = false := by
  decide

/-- **C6 amended**: `is_inactive_contract_status` returns true iff
splitting the lower-cased string on hyphen or underscore **only** (space
is not a separator) yields at least one token in the fixed deny-list;
`None` and the empty string are treated as active. -/
theorem C6_inactive_status_amended (value : Option String) :
    is_inactive_contract_status value = true ↔
      ∃ s, value = some s ∧ s ≠ "" ∧ ∃ t ∈ statusTokens s, t ∈ INACTIVE_STATUS_TOKENS := by
  cases value with
  | none => simp [is_inactive_contract_status]
  | some s =>
      by_cases hs : s = ""
      · subst hs
        constructor
        · intro h
          exact absurd h (by decide)
        · rintro ⟨s', hs', hne, _⟩
          cases hs'
          exact absurd rfl hne
      · have hie : s.isEmpty = false := by
          cases hcase : s.isEmpty
          · rfl
          · exact absurd ((String.isEmpty_iff s).mp hcase) hs
        simp only [is_inactive_contract_status, hie, Bool.false_eq_true, if_false]
        rw [List.any_eq_true]
        constructor
        · rintro ⟨t, ht, hc⟩
          exact ⟨s, rfl, hs, t, by simpa using hc, ht⟩
        · rintro ⟨s', hs', hne, t, htok, hdeny⟩
          cases hs'
          exact ⟨t, hdeny, by simpa using htok⟩

/-! ## Claim C3 — claims hygiene on claims writes -/

/-- **C3 counterexample**: the claim says that after a successful claims
write the claims map equals exactly `{"role": <role>}` for *every*
pre-existing claims map.  But `update_user_claims` strips only the four
tenancy keys: a pre-existing unrelated key (here `"foo"`) survives a
successful `manage_staff_account(..., role="staff")`. -/
theorem C3_counterexample :
    (match (manage_staff_account
        (some (.vMap [("storeId", .vStr "s1"), ("email", .vStr "staff@example.com"),
                      ("role", .vStr "staff")]))
        ⟨some ⟨"owner", .vMap [("role", .vStr "owner")]⟩⟩
        ⟨[], [], [("u9", ⟨"u9", some "staff@example.com", some "pw",
          [("foo", .vInt 1), ("stores", .vInt 2)]⟩)]⟩ 7).1 with
     | .ok v => vGet v "claims"
     | .error _ => .vNone) = .vMap [("foo", .vInt 1), ("role", .vStr "staff")] := by
  decide

/-- **C3 amended**: after any claims write, the written (and returned)
claims map is the pre-existing map with `role` set to the written role
and exactly the four tenancy keys `stores`/`activeStoreId`/`storeId`/
`roleByStore` removed; every other pre-existing key survives with its
value.  (Only when the pre-existing map contains no other keys does the
result equal exactly `{"role": <role>}`.) -/
theorem C3_claims_write_amended (uid : String) (role : Value) (auth : AuthState)
    (hnd : (alKeys (ensureUid auth uid).1.custom_claims).Nodup) :
    alGet (update_user_claims uid role auth).1 "role" = some role ∧
    (∀ k ∈ (["stores", "activeStoreId", "storeId", "roleByStore"] : List String),
      alGet (update_user_claims uid role auth).1 k = none) ∧
    (∀ k, k ∉ (["stores", "activeStoreId", "storeId", "roleByStore"] : List String) →
      k ≠ "role" →
      alGet (update_user_claims uid role auth).1 k =
        alGet (ensureUid auth uid).1.custom_claims k) ∧
    (∃ r, alGet (update_user_claims uid role auth).2 uid = some r ∧
      r.custom_claims = (update_user_claims uid role auth).1) := by
  refine ⟨update_user_claims_role uid role auth, ?_, ?_, update_user_claims_stored uid role auth⟩
  · intro k hk
    simp only [update_user_claims]
    exact alGet_foldl_alPop_mem _ _ hk (alKeys_alSet_nodup "role" role hnd)
  · intro k hk hr
    simp only [update_user_claims]
    rw [alGet_foldl_alPop_ne _ _ hk]
    exact alGet_alSet_ne _ role hr

/-- Witness for C3 (amended) at a fresh uid and empty identity state. -/
theorem C3_witness :
    alGet (update_user_claims "u1" (.vStr "staff") []).1 "role" = some (.vStr "staff") :=
  (C3_claims_write_amended "u1" (.vStr "staff") [] (by decide)).1

/-! ## Claim C9 — email mirroring -/

/-- **C9**: after every successful `initialize_store` call whose token
carries a (non-empty) email, and after every successful
`manage_staff_account` call, a TeamMember document exists in the roster
collection both at the uid key and at the lower-cased-email key, and the
two documents carry identical `role` and `storeId` values.  (For
`manage_staff_account` the email key is the payload email as lower-cased
by `get_optional_email`.) -/
theorem C9_email_mirroring :
    (∀ data uid token w tsUpd tsNow v w' ev,
      initialize_store data ⟨some ⟨uid, token⟩⟩ w tsUpd tsNow = (.ok v, w') →
      vGet token "email" = .vStr ev → ev ≠ "" →
      ∃ d1 d2 s,
        fsDoc w'.roster "teamMembers" uid = some d1 ∧
        fsDoc w'.roster "teamMembers" (pyLower ev) = some d2 ∧
        alGet d1 "role" = some (.vStr "owner") ∧ alGet d2 "role" = some (.vStr "owner") ∧
        alGet d1 "storeId" = some s ∧ alGet d2 "storeId" = some s) ∧
    (∀ data ctx w ts v w',
      manage_staff_account data ctx w ts = (.ok v, w') →
      ∃ u e d1 d2 r s,
        vGet v "uid" = .vStr u ∧ vGet v "email" = .vStr e ∧
        get_optional_email (vGet (data.getD (.vMap [])) "email") = some e ∧
        fsDoc w'.roster "teamMembers" u = some d1 ∧
        fsDoc w'.roster "teamMembers" e = some d2 ∧
        alGet d1 "role" = some r ∧ alGet d2 "role" = some r ∧
        alGet d1 "storeId" = some s ∧ alGet d2 "storeId" = some s) := by
  constructor
  · intro data uid token w tsUpd tsNow v w' ev h hev hev2
    unfold initialize_store at h
    cases hr : initResolve data token with
    | error e =>
        simp only [hr] at h
        simp at h
    | ok rv =>
        simp only [hr] at h
        have hie : ev.isEmpty = false := by
          cases hc : ev.isEmpty
          · rfl
          · exact absurd ((String.isEmpty_iff ev).mp hc) hev2
        have hnm : rv.normalized_email = some (pyLower ev) := by
          unfold initResolve at hr
          cases hc : normalize_contact_payload (vGet (data.getD (.vMap [])) "contact") with
          | error e =>
              simp only [hc] at hr
              simp at hr
          | ok contact =>
              simp only [hc] at hr
              by_cases hcond : vGet (data.getD (.vMap [])) "planId" ≠ Value.vNone ∧
                  normalize_plan_id (vGet (data.getD (.vMap [])) "planId") = none
              · rw [if_pos hcond] at hr
                simp at hr
              · rw [if_neg hcond] at hr
                cases hr
                simp [hev, hie]
        have hw : (initStoreCore rv uid w tsUpd tsNow).2 = w' := congrArg Prod.snd h
        obtain ⟨d1, d2, s, h1, h2, h3, h4, h5, h6⟩ :=
          initStoreCore_roster_mirror rv uid w tsUpd tsNow (pyLower ev) hnm
            (pyLower_ne_empty hev2)
        rw [hw] at h1 h2
        exact ⟨d1, d2, s, h1, h2, h3, h4, h5, h6⟩
  · intro data ctx w ts v w' h
    unfold manage_staff_account at h
    cases hctx : ctx.auth with
    | none =>
        simp only [hctx] at h
        simp at h
    | some a =>
        simp only [hctx] at h
        split_ifs at h with hrole
        · simp at h
        · cases hp : normalize_manage_staff_payload (data.getD (.vMap [])) with
          | error e0 =>
              simp only [hp] at h
              simp at h
          | ok quad =>
              obtain ⟨sid, e, role, pwd⟩ := quad
              simp only [hp] at h
              cases he : ensureUser w.auth e pwd with
              | error err =>
                  simp only [he] at h
                  simp at h
              | ok pr =>
                  obtain ⟨⟨record, created⟩, users1⟩ := pr
                  simp only [he] at h
                  injection h with hv hw
                  injection hv with hv2
                  subst hv2
                  subst hw
                  have hemail : get_optional_email (vGet (data.getD (.vMap [])) "email") =
                      some e := by
                    unfold normalize_manage_staff_payload at hp
                    cases hpw : (match vGet (data.getD (.vMap [])) "password" with
                      | .vNone => Except.ok (none : Option String)
                      | .vStr s => if s.isEmpty then Except.ok none else Except.ok (some s)
                      | _ => Except.error
                          (⟨"invalid-argument", "Password must be a string when provided"⟩ :
                            HttpsError)) with
                    | error e1 =>
                        simp only [hpw] at hp
                        simp at hp
                    | ok p0 =>
                        simp only [hpw] at hp
                        split_ifs at hp with hc1 hc2 hc3
                        cases hge : get_optional_email (vGet (data.getD (.vMap [])) "email") with
                        | none =>
                            exfalso
                            rw [hge] at hc2
                            exact hc2 (by decide)
                        | some e0 =>
                            injection hp with hq
                            injection hq with hqA hq
                            injection hq with hqB hq
                            rw [hge] at hqB
                            simp at hqB
                            rw [hqB]
                  obtain ⟨d1, d2, h1, h2, h3, h4, h5, h6⟩ :=
                    fsSet_mirror w.roster "teamMembers" record.uid e _ _
                      (manageMemberData_nodup record.uid e sid role (.vStr a.uid) ts _)
                      (manageEmailData_nodup e ts _
                        (manageMemberData_nodup record.uid e sid role (.vStr a.uid) ts _))
                      (manageMemberData_role record.uid e sid role (.vStr a.uid) ts _)
                      ((manageEmailData_role _ e ts _).trans
                        (manageMemberData_role record.uid e sid role (.vStr a.uid) ts _))
                      (manageMemberData_storeId record.uid e sid role (.vStr a.uid) ts _)
                      ((manageEmailData_storeId _ e ts _).trans
                        (manageMemberData_storeId record.uid e sid role (.vStr a.uid) ts _))
                  exact ⟨record.uid, e, d1, d2, .vStr role, .vStr sid,
                    by simp [vGet, alGet], by simp [vGet, alGet], hemail,
                    h1, h2, h3, h4, h5, h6⟩

/-- Witness for C9: a fresh onboarding with token email `U@Ex.com`
mirrors the owner TeamMember document at `u@ex.com`. -/
theorem C9_witness :
    ∃ d1 d2 s,
      fsDoc (initialize_store (some (.vMap []))
          ⟨some ⟨"u1", .vMap [("email", .vStr "U@Ex.com")]⟩⟩ World.empty 0 0).2.roster
        "teamMembers" "u1" = some d1 ∧
      fsDoc (initialize_store (some (.vMap []))
          ⟨some ⟨"u1", .vMap [("email", .vStr "U@Ex.com")]⟩⟩ World.empty 0 0).2.roster
        "teamMembers" (pyLower "U@Ex.com") = some d2 ∧
      alGet d1 "role" = some (.vStr "owner") ∧ alGet d2 "role" = some (.vStr "owner") ∧
      alGet d1 "storeId" = some s ∧ alGet d2 "storeId" = some s := by
  rcases hcall : initialize_store (some (.vMap []))
      ⟨some ⟨"u1", .vMap [("email", .vStr "U@Ex.com")]⟩⟩ World.empty 0 0 with ⟨r, w2⟩
  cases r with
  | error e =>
      have hok : (match (initialize_store (some (.vMap []))
          ⟨some ⟨"u1", .vMap [("email", .vStr "U@Ex.com")]⟩⟩ World.empty 0 0).1 with
        | .ok _ => true
        | .error _ => false) = true := by decide
      rw [hcall] at hok
      simp at hok
  | ok v =>
      obtain ⟨d1, d2, s, h1, h2, h3, h4, h5, h6⟩ :=
        C9_email_mirroring.1 (some (.vMap [])) "u1" (.vMap [("email", .vStr "U@Ex.com")])
          World.empty 0 0 v w2 "U@Ex.com" hcall rfl (by decide)
      exact ⟨d1, d2, s, h1, h2, h3, h4, h5, h6⟩

/-! ## Claim C10 — missing membership role silently defaults to staff -/

/-- **C10**: when the caller's TeamMember document exists but the store
lookup succeeds and the store is active, `resolve_store_access` writes
and returns a `role` claim equal to `member.get("role", "staff")`: a
membership with **no** `role` key silently becomes `"staff"`, while a
`role` key explicitly present with value `None` is passed through as
`None`. -/
theorem C10_missing_role_defaults_staff (d : Option Value) (uid : String) (token : Value)
    (w : World) (member store : Doc)
    (hm : fsDoc w.roster "teamMembers" uid = some member)
    (hs : fsDoc w.defaultDb "stores" (memberStoreId member uid) = some store)
    (hactive : is_inactive_contract_status (storeStatusString store) = false) :
    ∃ v w', resolve_store_access d ⟨some ⟨uid, token⟩⟩ w = (.ok v, w') ∧
      vGet (vGet v "claims") "role" = (alGet member "role").getD (.vStr "staff") ∧
      (∃ r, alGet w'.auth uid = some r ∧
        alGet r.custom_claims "role" = some ((alGet member "role").getD (.vStr "staff"))) := by
  simp only [resolve_store_access, hm, hs, hactive, Bool.false_eq_true, if_false]
  refine ⟨_, _, rfl, ?_, ?_⟩
  · simp [vGet, alGet, update_user_claims_role]
  · obtain ⟨r, hr, hc⟩ := update_user_claims_stored uid ((alGet member "role").getD (.vStr "staff")) w.auth
    exact ⟨r, hr, by rw [hc]; exact update_user_claims_role _ _ _⟩

/-- Witness for C10: a membership without a `role` key resolves to staff
claims on an active store. -/
theorem C10_witness :
    ∃ v w', resolve_store_access none ⟨some ⟨"u5", .vMap []⟩⟩
        ⟨[("teamMembers", [("u5", [("storeId", .vStr "s5")])])],
         [("stores", [("s5", [("status", .vStr "Active")])])], []⟩ = (.ok v, w') ∧
      vGet (vGet v "claims") "role" =
        (alGet [("storeId", Value.vStr "s5")] "role").getD (.vStr "staff") ∧
      (∃ r, alGet w'.auth "u5" = some r ∧
        alGet r.custom_claims "role" =
          some ((alGet [("storeId", Value.vStr "s5")] "role").getD (.vStr "staff"))) :=
  C10_missing_role_defaults_staff none "u5" (.vMap [])
    ⟨[("teamMembers", [("u5", [("storeId", .vStr "s5")])])],
     [("stores", [("s5", [("status", .vStr "Active")])])], []⟩
    [("storeId", .vStr "s5")] [("status", .vStr "Active")]
    (by decide) (by decide) (by decide)

/-! ## Claim C2 — resolve_store_access gating -/

/-- **C2**: for every authenticated uid, `resolve_store_access` fails
`permission-denied` when no TeamMember document exists at key uid; fails
`failed-precondition` when the membership exists but no Store document
exists at the derived storeId (membership storeId, falling back to uid);
fails `permission-denied` when the store's status (preferring `status`,
falling back to `contractStatus`) is classified inactive; and otherwise
succeeds, returning the membership's role in `claims.role`.  All error
paths leave the world untouched. -/
theorem C2_resolve_store_access_gating (d : Option Value) (uid : String) (token : Value)
    (w : World) :
    (fsDoc w.roster "teamMembers" uid = none →
      resolve_store_access d ⟨some ⟨uid, token⟩⟩ w =
        (.error ⟨"permission-denied",
          "We could not find a workspace assignment for this account. Reach out to your Sedifex administrator."⟩,
         w)) ∧
    (∀ member, fsDoc w.roster "teamMembers" uid = some member →
      fsDoc w.defaultDb "stores" (memberStoreId member uid) = none →
      resolve_store_access d ⟨some ⟨uid, token⟩⟩ w =
        (.error ⟨"failed-precondition",
          "We could not locate the Sedifex workspace configuration for this store. Reach out to your Sedifex administrator."⟩,
         w)) ∧
    (∀ member store, fsDoc w.roster "teamMembers" uid = some member →
      fsDoc w.defaultDb "stores" (memberStoreId member uid) = some store →
      is_inactive_contract_status (storeStatusString store) = true →
      resolve_store_access d ⟨some ⟨uid, token⟩⟩ w =
        (.error ⟨"permission-denied", INACTIVE_WORKSPACE_MESSAGE⟩, w)) ∧
    (∀ member store, fsDoc w.roster "teamMembers" uid = some member →
      fsDoc w.defaultDb "stores" (memberStoreId member uid) = some store →
      is_inactive_contract_status (storeStatusString store) = false →
      ∃ v w', resolve_store_access d ⟨some ⟨uid, token⟩⟩ w = (.ok v, w') ∧
        ∀ roleStr, alGet member "role" = some (.vStr roleStr) →
          vGet (vGet v "claims") "role" = .vStr roleStr) := by
  refine ⟨?_, ?_, ?_, ?_⟩
  · intro h
    simp [resolve_store_access, h]
  · intro member hm hs
    simp [resolve_store_access, hm, hs]
  · intro member store hm hs hinactive
    simp [resolve_store_access, hm, hs, hinactive]
  · intro member store hm hs hactive
    simp only [resolve_store_access, hm, hs, hactive, Bool.false_eq_true, if_false]
    refine ⟨_, _, rfl, ?_⟩
    intro roleStr hrole
    simp [vGet, alGet, hrole, update_user_claims_role]

/-- Witness for C2: the four gating outcomes at concrete worlds — a
missing membership, a membership with a missing store, a `Suspended`
store, and an `Active` store with an `owner` member. -/
theorem C2_witness :
    resolve_store_access none ⟨some ⟨"u6", .vMap []⟩⟩ World.empty =
      (.error ⟨"permission-denied",
        "We could not find a workspace assignment for this account. Reach out to your Sedifex administrator."⟩,
       World.empty) ∧
    resolve_store_access none ⟨some ⟨"u6", .vMap []⟩⟩
        ⟨[("teamMembers", [("u6", [("storeId", .vStr "s6")])])], [], []⟩ =
      (.error ⟨"failed-precondition",
        "We could not locate the Sedifex workspace configuration for this store. Reach out to your Sedifex administrator."⟩,
       ⟨[("teamMembers", [("u6", [("storeId", .vStr "s6")])])], [], []⟩) ∧
    resolve_store_access none ⟨some ⟨"u6", .vMap []⟩⟩
        ⟨[("teamMembers", [("u6", [("storeId", .vStr "s6")])])],
         [("stores", [("s6", [("status", .vStr "Suspended")])])], []⟩ =
      (.error ⟨"permission-denied", INACTIVE_WORKSPACE_MESSAGE⟩,
       ⟨[("teamMembers", [("u6", [("storeId", .vStr "s6")])])],
        [("stores", [("s6", [("status", .vStr "Suspended")])])], []⟩) ∧
    (∃ v w', resolve_store_access none ⟨some ⟨"u6", .vMap []⟩⟩
        ⟨[("teamMembers", [("u6", [("storeId", .vStr "s6"), ("role", .vStr "owner")])])],
         [("stores", [("s6", [("status", .vStr "Active")])])], []⟩ = (.ok v, w') ∧
      ∀ roleStr,
        alGet [("storeId", Value.vStr "s6"), ("role", Value.vStr "owner")] "role" =
          some (.vStr roleStr) →
        vGet (vGet v "claims") "role" = .vStr roleStr) := by
  refine ⟨?_, ?_, ?_, ?_⟩
  · exact (C2_resolve_store_access_gating none "u6" (.vMap []) World.empty).1 (by decide)
  · exact (C2_resolve_store_access_gating none "u6" (.vMap [])
      ⟨[("teamMembers", [("u6", [("storeId", .vStr "s6")])])], [], []⟩).2.1
      [("storeId", .vStr "s6")] (by decide) (by decide)
  · exact (C2_resolve_store_access_gating none "u6" (.vMap [])
      ⟨[("teamMembers", [("u6", [("storeId", .vStr "s6")])])],
       [("stores", [("s6", [("status", .vStr "Suspended")])])], []⟩).2.2.1
      [("storeId", .vStr "s6")] [("status", .vStr "Suspended")]
      (by decide) (by decide) (by decide)
  · exact (C2_resolve_store_access_gating none "u6" (.vMap [])
      ⟨[("teamMembers", [("u6", [("storeId", .vStr "s6"), ("role", .vStr "owner")])])],
       [("stores", [("s6", [("status", .vStr "Active")])])], []⟩).2.2.2
      [("storeId", .vStr "s6"), ("role", .vStr "owner")] [("status", .vStr "Active")]
      (by decide) (by decide) (by decide)

/-! ## Claim C8 — the concrete onboarding scenario -/

/-- **C8 counterexample**: the claim expects
`store.ownerEmail == "owner@example.com"` (lower-cased) for token email
`"Owner@Example.com"`, but `initialize_store` stores the token email
verbatim — lower-casing is applied only to the roster mirror key. -/
theorem C8_counterexample :
    (match (initialize_store (some (.vMap []))
        ⟨some ⟨"u1", .vMap [("email", .vStr "Owner@Example.com")]⟩⟩ World.empty 0 5).1 with
     | .ok v => vGet (vGet (vGet v "store") "data") "ownerEmail"
     | .error _ => .vNone) = .vStr "Owner@Example.com" ∧
    Value.vStr "Owner@Example.com" ≠ .vStr "owner@example.com" := by
  constructor
  · decide
  · decide

/-- **C8 amended**: for uid `u1`, token email `Owner@Example.com`, empty
payload and no pre-existing documents, `initialize_store` returns
storeId `u1`, claims exactly `{"role": "owner"}`,
`store.ownerEmail = "Owner@Example.com"` (the token email **as given**,
not lower-cased), `workspace.planId = "starter"`, and the serialized
contractEnd minus contractStart equals exactly 14 days in milliseconds
(1209600000). -/
theorem C8_concrete_amended :
    (match (initialize_store (some (.vMap []))
        ⟨some ⟨"u1", .vMap [("email", .vStr "Owner@Example.com")]⟩⟩ World.empty 0 5).1 with
     | .ok v =>
        (vGet v "storeId", vGet v "claims",
         vGet (vGet (vGet v "store") "data") "ownerEmail",
         vGet (vGet (vGet v "workspace") "data") "planId",
         vGet (vGet (vGet (vGet v "store") "data") "contractStart") "_millis",
         vGet (vGet (vGet (vGet v "store") "data") "contractEnd") "_millis")
     | .error _ => (.vNone, .vNone, .vNone, .vNone, .vNone, .vNone)) =
      (.vStr "u1", .vMap [("role", .vStr "owner")], .vStr "Owner@Example.com",
       .vStr "starter", .vInt 5, .vInt (5 + 1209600000)) := by
  decide

/-! ## Claim C5 — plan resolution -/

/-- **C5 counterexample**: the claim says that when no planId is
requested, the plan already on the store's **billing block** is used,
else `starter`.  But the source also falls back to the store's
**top-level** `planId` before `starter`: a pre-existing store with
`planId: "pro"` and no billing block resolves to `"pro"`, not
`"starter"`. -/
theorem C5_counterexample :
    (match (initialize_store none ⟨some ⟨"u1", .vMap []⟩⟩
        ⟨[], [("stores", [("u1", [("planId", .vStr "pro")])])], []⟩ 0 0).1 with
     | .ok v => vGet (vGet (vGet (vGet v "store") "data") "billing") "planId"
     | .error _ => .vNone) = .vStr "pro" ∧ Value.vStr "pro" ≠ .vStr "starter" := by
  constructor
  · decide
  · decide

/-- **C5 amended**: (a) a present, non-`None` `planId` that does not
normalize to a known plan makes `initialize_store` fail
`invalid-argument` with the world untouched (never a silent fallback);
(b) requesting `planId "pro"` on a fresh uid yields
`store.billing.planId = "pro"`; (c) with no requested planId, the plan
is the one already on the store's billing block, **else the store's
top-level `planId`**, else `starter`. -/
theorem C5_plan_resolution_amended (uid : String) (token : Value) (tsUpd tsNow : Int) :
    (∀ data w, vGet (data.getD (.vMap [])) "planId" ≠ .vNone →
      normalize_plan_id (vGet (data.getD (.vMap [])) "planId") = none →
      ∃ e, initialize_store data ⟨some ⟨uid, token⟩⟩ w tsUpd tsNow = (.error e, w) ∧
        e.code = "invalid-argument") ∧
    (∃ v w', initialize_store (some (.vMap [("planId", .vStr "pro")])) ⟨some ⟨uid, token⟩⟩
        World.empty tsUpd tsNow = (.ok v, w') ∧
      vGet (vGet (vGet (vGet v "store") "data") "billing") "planId" = .vStr "pro") ∧
    (∀ store, ∃ v w', initialize_store none ⟨some ⟨uid, token⟩⟩
        ⟨[], [("stores", [(uid, store)])], []⟩ tsUpd tsNow = (.ok v, w') ∧
      vGet (vGet (vGet (vGet v "store") "data") "billing") "planId" =
        .vStr ((optOr (normalize_plan_id ((alGet (billingPayloadOf store) "planId").getD .vNone))
                (normalize_plan_id ((alGet store "planId").getD .vNone))).getD "starter")) := by
  refine ⟨?_, ?_, ?_⟩
  · intro data w hne hnorm
    cases hr : initResolve data token with
    | error e =>
        refine ⟨e, ?_, initResolve_error_code hr⟩
        simp [initialize_store, hr]
    | ok rv =>
        exfalso
        unfold initResolve at hr
        cases hc : normalize_contact_payload (vGet (data.getD (.vMap [])) "contact") with
        | error e' => simp [hc] at hr
        | ok contact =>
            simp only [hc] at hr
            rw [if_pos ⟨hne, hnorm⟩] at hr
            cases hr
  · refine ⟨_, _, rfl, ?_⟩
    have hpro : normalize_plan_id (.vStr "pro") = some "pro" := by decide
    simp [initialize_store, initResolve, initStoreCore, initStoreData, billingDetails,
      normalize_contact_payload,
      vGet, alGet, fsDoc, World.empty, billingPayloadOf, hpro, optOr, setdefaultD,
      alGet_serialize, serialize_firestore_data, serializeValue,
      alGet_alSet_self, alGet_alSet_ne, alGet_truthySet_ne, alGet_optSet_ne,
      alGet_setdefaultD_ne, alGet_iteSet_ne1, alGet_iteSet_ne2, optStrVal, to_timestamp]
  · intro store
    refine ⟨_, _, rfl, ?_⟩
    have h0 : normalize_plan_id Value.vNone = none := rfl
    simp [h0, initialize_store, initResolve, initStoreCore, initStoreData, billingDetails,
      normalize_contact_payload,
      vGet, alGet, fsDoc, billingPayloadOf, optOr, setdefaultD,
      alGet_serialize, serialize_firestore_data, serializeValue,
      alGet_alSet_self, alGet_alSet_ne, alGet_truthySet_ne, alGet_optSet_ne,
      alGet_setdefaultD_ne, alGet_iteSet_ne1, alGet_iteSet_ne2, optStrVal, to_timestamp]

/-- Witness for C5 (amended), discharging the hypotheses of conjunct (a)
at a concrete bogus plan id. -/
theorem C5_witness :
    ∃ e, initialize_store (some (.vMap [("planId", .vStr "bogus")])) ⟨some ⟨"u1", .vMap []⟩⟩
        World.empty 0 0 = (.error e, World.empty) ∧ e.code = "invalid-argument" :=
  (C5_plan_resolution_amended "u1" (.vMap []) 0 0).1 (some (.vMap [("planId", .vStr "bogus")]))
    World.empty (by decide) (by decide)

/-! ## Claim C7 — merge semantics of `set(merge=True)` -/

/-- **C7 counterexample**: the claim says nested maps are merged
key-by-key (sibling keys preserved); the source performs a plain
top-level `dict.update`, so merging `{"a": {"x": 9}}` into a document
holding `{"a": {"x": 1, "y": 2}}` drops the sibling key `"y"`. -/
theorem C7_counterexample :
    docSetIn [("doc", [("a", .vMap [("x", .vInt 1), ("y", .vInt 2)])])] "doc"
        [("a", .vMap [("x", .vInt 9)])] true =
      [("doc", [("a", .vMap [("x", .vInt 9)])])] := by
  decide

/-- **C7 amended**: on an existing document, `set(data, merge=True)`
performs a **shallow** merge: every top-level key of the payload
overwrites the stored key outright — including map values, which are
replaced wholesale, not merged — while keys absent from the payload are
preserved. -/
theorem C7_merge_amended (c : Col) (docId : String) (data existing : Doc)
    (hex : alGet c docId = some existing) (hnd : (alKeys data).Nodup) :
    alGet (docSetIn c docId data true) docId = some (dictUpdate existing data) ∧
    ∀ k, alGet (dictUpdate existing data) k = optOr (alGet data k) (alGet existing k) := by
  refine ⟨?_, fun k => alGet_dictUpdate existing hnd k⟩
  simp [docSetIn, hex, normEntries_eq, alGet_alSet_self]

/-- Witness for C7 at a concrete document and payload. -/
theorem C7_witness :
    alGet (docSetIn [("doc", [("a", .vMap [("x", .vInt 1)]), ("b", .vInt 5)])] "doc"
        [("a", .vMap [("z", .vInt 9)])] true) "doc" =
      some (dictUpdate [("a", .vMap [("x", .vInt 1)]), ("b", .vInt 5)]
        [("a", .vMap [("z", .vInt 9)])]) ∧
    alGet (dictUpdate [("a", .vMap [("x", .vInt 1)]), ("b", .vInt 5)]
        [("a", .vMap [("z", .vInt 9)])]) "b" =
      optOr (alGet [("a", Value.vMap [("z", Value.vInt 9)])] "b")
        (alGet [("a", .vMap [("x", .vInt 1)]), ("b", .vInt 5)] "b") :=
  ⟨(C7_merge_amended [("doc", [("a", .vMap [("x", .vInt 1)]), ("b", .vInt 5)])] "doc"
      [("a", .vMap [("z", .vInt 9)])] [("a", .vMap [("x", .vInt 1)]), ("b", .vInt 5)]
      (by decide) (by decide)).1,
   (C7_merge_amended [("doc", [("a", .vMap [("x", .vInt 1)]), ("b", .vInt 5)])] "doc"
      [("a", .vMap [("z", .vInt 9)])] [("a", .vMap [("x", .vInt 1)]), ("b", .vInt 5)]
      (by decide) (by decide)).2 "b"⟩

/-! ## Claim C4 — idempotent onboarding -/

/-- **C4 counterexample**: the claim quantifies over *every* fresh uid,
but a uid with surrounding whitespace is keyed raw on the first call and
re-derived through `get_optional_string` (which strips) on the second:
`initialize_store` for uid `" x "` returns storeId `" x "` first and
`"x"` second. -/
theorem C4_counterexample :
    (match (initialize_store none ⟨some ⟨" x ", .vMap []⟩⟩ World.empty 0 0).1 with
     | .ok v => vGet v "storeId"
     | .error _ => .vNone) = .vStr " x " ∧
    (match (initialize_store none ⟨some ⟨" x ", .vMap []⟩⟩
        (initialize_store none ⟨some ⟨" x ", .vMap []⟩⟩ World.empty 0 0).2 5 5).1 with
     | .ok v => vGet v "storeId"
     | .error _ => .vNone) = .vStr "x" ∧
    Value.vStr " x " ≠ .vStr "x" := by
  refine ⟨by decide, by decide, by decide⟩

/-- **C4 (amended)**: for every uid that `str.strip()` leaves unchanged
and that starts with no pre-existing documents, calling
`initialize_store` twice (same payload, same context) succeeds twice,
returns the same storeId, the same workspace id and the same serialized
`contractStart`/`contractEnd` values, and the second call rewrites
exactly `updatedAt` in every stored document — `createdAt` is neither
re-included nor overwritten, the contract window keeps its first-written
values, and the identity records are unchanged. -/
theorem C4_idempotent_amended (data : Option Value) (ctx : CallableContext)
    (a : AuthContext) (t1 n1 t2 n2 : Int) (v1 : Value) (w1 : World)
    (hauth : ctx.auth = some a) (hstrip : pyStrip a.uid = a.uid)
    (h1 : initialize_store data ctx World.empty t1 n1 = (.ok v1, w1)) :
    ∃ v2, initialize_store data ctx w1 t2 n2 =
        (.ok v2, ⟨mapUpdFs t2 w1.roster, mapUpdFs t2 w1.defaultDb, w1.auth⟩) ∧
      vGet v2 "storeId" = vGet v1 "storeId" ∧
      vGet (vGet v2 "workspace") "id" = vGet (vGet v1 "workspace") "id" ∧
      vGet (vGet (vGet v2 "store") "data") "contractStart" =
        vGet (vGet (vGet v1 "store") "data") "contractStart" ∧
      vGet (vGet (vGet v2 "store") "data") "contractEnd" =
        vGet (vGet (vGet v1 "store") "data") "contractEnd" := by
  unfold initialize_store at h1 ⊢
  rw [hauth] at h1 ⊢
  cases hr : initResolve data a.token with
  | error e =>
      simp only [hr] at h1
      injection h1 with hv hw
      cases hv
  | ok rv =>
      simp only [hr] at h1 ⊢
      exact initStoreCore_idem rv a.uid t1 n1 t2 n2 hstrip v1 w1 h1

/-- Witness for C4 (amended): a concrete double onboarding for uid `u1`
with an empty payload, hypotheses discharged by computation. -/
theorem C4_witness :
    ∃ v2, initialize_store none ⟨some ⟨"u1", .vMap []⟩⟩
        (initialize_store none ⟨some ⟨"u1", .vMap []⟩⟩ World.empty 0 0).2 5 7 =
        (.ok v2,
         ⟨mapUpdFs 5 (initialize_store none ⟨some ⟨"u1", .vMap []⟩⟩ World.empty 0 0).2.roster,
          mapUpdFs 5 (initialize_store none ⟨some ⟨"u1", .vMap []⟩⟩ World.empty 0 0).2.defaultDb,
          (initialize_store none ⟨some ⟨"u1", .vMap []⟩⟩ World.empty 0 0).2.auth⟩) ∧
      vGet v2 "storeId" =
        vGet ((initialize_store none ⟨some ⟨"u1", .vMap []⟩⟩
          World.empty 0 0).1.toOption.getD .vNone) "storeId" ∧
      vGet (vGet v2 "workspace") "id" =
        vGet (vGet ((initialize_store none ⟨some ⟨"u1", .vMap []⟩⟩
          World.empty 0 0).1.toOption.getD .vNone) "workspace") "id" ∧
      vGet (vGet (vGet v2 "store") "data") "contractStart" =
        vGet (vGet (vGet ((initialize_store none ⟨some ⟨"u1", .vMap []⟩⟩
          World.empty 0 0).1.toOption.getD .vNone) "store") "data") "contractStart" ∧
      vGet (vGet (vGet v2 "store") "data") "contractEnd" =
        vGet (vGet (vGet ((initialize_store none ⟨some ⟨"u1", .vMap []⟩⟩
          World.empty 0 0).1.toOption.getD .vNone) "store") "data") "contractEnd" :=
  C4_idempotent_amended none ⟨some ⟨"u1", .vMap []⟩⟩ ⟨"u1", .vMap []⟩ 0 0 5 7
    ((initialize_store none ⟨some ⟨"u1", .vMap []⟩⟩ World.empty 0 0).1.toOption.getD .vNone)
    (initialize_store none ⟨some ⟨"u1", .vMap []⟩⟩ World.empty 0 0).2
    rfl (by decide) (by decide)

end Sedifex
